import Mathlib

/-!
Shallow embedding of the core of the `nes-emu` NES emulator (Rust) and
verification of spec claims about it.

Conventions of the embedding:
* Machine integers (`u8`, `u16`, `usize`, `u64`) are modelled as `Nat`.
  Wherever the Rust source masks, shifts or wraps, the model does the same
  explicitly (`&&& 0xFF`, `% 256`, ...).  Rust `wrapping_add`/`wrapping_sub`
  are modelled with explicit modular arithmetic.
* Plain Rust `+`/`-`/`+=`/`-=` on sized integers is checked arithmetic: it
  panics on overflow when overflow checks are enabled (the profile used by
  the repository's own test suite).  Where such an overflow is reachable the
  model returns an `EmuErr.rtPanic` error; where the operands are evidently
  bounded (so no overflow can occur for any reachable value) a plain `Nat`
  operation is used and a comment marks the bound.
* Fallible Rust code (`Result<T, Box<dyn Error>>`) becomes
  `Except EmuErr T`.  Rust panics (`panic!`, `assert!`, `.unwrap()`,
  `.expect(..)`, out-of-bounds indexing, checked-arithmetic overflow) are
  modelled as `EmuErr.rtPanic` errors.
* `&mut self` methods become state-passing functions returning the updated
  state; the `Rc<RefCell<..>>`/`Arc<Mutex<..>>` sharing of the cartridge
  between bus and PPU is flattened into a single `cart` field of the bus,
  which every component reads and writes (the scheduler is single threaded,
  so this is observationally equivalent).
* Arrays (`[u8; N]`) are modelled as functions `Nat → Nat`; `Vec<u8>` is
  modelled as `List Nat` (indexing out of bounds is a panic).
-/

namespace NesEmu

/-- Error type covering `MemoryError`, `PpuMemoryError`, decode/execution
errors and runtime panics of the Rust source. -/
inductive EmuErr where
  | invalidAddress (addr : Nat)
  | readOnly (addr : Nat)
  | writeOnly (addr : Nat)
  | ppuInvalidAddress (addr : Nat)
  | ppuReadOnly (addr : Nat)
  | invalidOpcode (b : Nat)
  | invalidInstruction
  | msg (s : String)
  | rtPanic (s : String)
deriving DecidableEq, Repr

/-- Checked `u8` arithmetic result: Rust `+`/`-` panics when the result does
not fit in the type (with overflow checks on, as in the repo's test builds). -/
def chk8 (n : Nat) : Except EmuErr Nat :=
  if n < 256 then .ok n else .error (.rtPanic "u8 overflow")

/-- Checked `u16` arithmetic result. -/
def chk16 (n : Nat) : Except EmuErr Nat :=
  if n < 65536 then .ok n else .error (.rtPanic "u16 overflow")

/-- Checked unsigned subtraction (`x - y` panics on underflow). -/
def chkSub (x y : Nat) : Except EmuErr Nat :=
  if y ≤ x then .ok (x - y) else .error (.rtPanic "unsigned underflow")

/-- Wrapping `u8` subtraction (`Wrapping(a) - Wrapping(b)`, `u8::wrapping_sub`). -/
def wsub8 (a b : Nat) : Nat := (((a : Int) - (b : Int)) % 256).toNat

/-- Wrapping `u16` addition (`u16::wrapping_add`). -/
def wadd16 (a b : Nat) : Nat := (a + b) % 65536

/-- Bitwise `u8` not (`!m` on a `u8`). -/
def bnot8 (m : Nat) : Nat := (m % 256) ^^^ 0xFF

/-- Pointwise update of a byte-array-as-function. -/
def fupd (f : Nat → Nat) (k v : Nat) : Nat → Nat :=
  fun i => if i = k then v else f i

/-! ### `mem/utils.rs` -/

def hi_byte (addr : Nat) : Nat := (addr >>> 8) &&& 0xFF

def lo_byte (addr : Nat) : Nat := addr &&& 0xFF

def make_address (lo hi : Nat) : Nat :=
  (((hi <<< 8) &&& 0xFF00) ||| (lo &&& 0xFF))

def page_num (addr : Nat) : Nat := addr &&& 0xFF00

/-! ### `cpu/reg.rs`

`StatusFlags` is a `bitflags` struct over a `u8`.  The bit constants are
transcribed digit-for-digit from the source (note that `DECIMAL` and `BREAK`
are written with only seven binary digits there). -/

namespace StatusFlags

def CARRY : Nat := 0b00000001
def ZERO : Nat := 0b00000010
def INTERRUPT_DISABLE : Nat := 0b00000100
def DECIMAL : Nat := 0b0000100
def BREAK : Nat := 0b0001000
def UNUSED : Nat := 0b00100000
def OVERFLOW : Nat := 0b01000000
def NEGATIVE : Nat := 0b10000000

/-- `bitflags` `all()`: union of the declared flag bits. -/
def all : Nat :=
  CARRY ||| ZERO ||| INTERRUPT_DISABLE ||| DECIMAL ||| BREAK ||| UNUSED |||
  OVERFLOW ||| NEGATIVE

/-- `StatusFlags::from_bits`: `Some` iff no undeclared bit is set. -/
def from_bits (b : Nat) : Option Nat :=
  if b &&& (0xFF ^^^ all) = 0 then some b else none

end StatusFlags

/-- `bitflags` `contains` for a (single-bit) flag value. -/
def flagContains (b f : Nat) : Bool := b &&& f = f

/-- `bitflags` `insert`. -/
def flagInsert (b f : Nat) : Nat := b ||| f

/-- `bitflags` `remove` (`bits &= !other.bits` on a `u8`). -/
def flagRemove (b f : Nat) : Nat := b &&& (0xFF ^^^ f)

/-- `bitflags` `set`. -/
def flagSet (b f : Nat) (v : Bool) : Nat :=
  if v then flagInsert b f else flagRemove b f

/-- CPU register file (`Registers`); `Default` gives zeroes with status
`0b00100000`. -/
structure Registers where
  a : Nat
  x : Nat
  y : Nat
  pc : Nat
  sp : Nat
  status : Nat
deriving DecidableEq, Repr

def Registers.default : Registers :=
  { a := 0, x := 0, y := 0, pc := 0, sp := 0, status := 0b00100000 }

/-! ### `cpu/cpu.rs` interrupt type -/

inductive Interrupt where
  | Request
  | Reset
  | NonMaskable
deriving DecidableEq, Repr

def Interrupt.vector : Interrupt → Nat
  | .NonMaskable => 0xFFFA
  | .Reset => 0xFFFC
  | .Request => 0xFFFE

def Interrupt.num_cycles : Interrupt → Nat
  | .NonMaskable | .Reset => 8
  | .Request => 7

def STACK_OFFSET : Nat := 0x100

/-! ### `controller.rs` -/

/-- `Inputs` bitflags: A=1, B=2, Select=4, Start=8, Up=16, Down=32, Left=64,
Right=128; stored as a plain byte. -/
structure Controller where
  inputs : Nat
  read_state : Nat
  strobe : Bool
deriving DecidableEq, Repr

def Controller.new : Controller :=
  { inputs := 0, read_state := 0, strobe := true }

/-- `Controller::read`: returns bit 0 of `read_state` and shifts it right
(unconditionally -- the `strobe` field is not consulted). -/
def Controller.read (c : Controller) : Nat × Controller :=
  let bit := c.read_state &&& 1
  (bit, { c with read_state := c.read_state >>> 1 })

/-- `Controller::write`: bit 0 of the value becomes the strobe flag, and the
live `inputs` byte is latched into `read_state` on every write. -/
def Controller.write (c : Controller) (value : Nat) : Controller :=
  { c with strobe := decide (value &&& 1 ≠ 0), read_state := c.inputs }

/-! ### `ines/parse.rs` / `cart/cart.rs`

`MirrorType` as used by the live mapper code (`cart.rs`, `mapper1.rs`):
four variants. -/

inductive MirrorType where
  | Horizontal
  | Vertical
  | OneScreenLow
  | OneScreenHigh
deriving DecidableEq, Repr

/-- `cart::cart::nametable_addr`: map a nametable address to an offset into
the physical 2 KiB VRAM according to the mirroring mode. -/
def nametable_addr (addr0 : Nat) (mirror_type : MirrorType) : Nat :=
  let addr := addr0 &&& 0xFFF
  match mirror_type with
  | .Vertical =>
      if (addr ≤ 0x3FF) ∨ (0x800 ≤ addr ∧ addr ≤ 0xBFF) then addr &&& 0x3FF
      else (addr &&& 0x3FF) ||| 0x400
  | .Horizontal =>
      if addr ≤ 0x7FF then addr &&& 0x3FF
      else (addr &&& 0x3FF) ||| 0x400
  | .OneScreenLow => addr &&& 0x3FF
  | .OneScreenHigh => (addr &&& 0x3FF) ||| 0x400

/-! ### `cart/mapper0.rs` (`Nrom`) -/

structure Nrom where
  prg_rom : List Nat
  prg_ram : Nat → Nat
  chr_rom : List Nat
  chr_ram : Nat → Nat
  mirroring : MirrorType
  num_prg_banks : Nat

/-- `Vec` indexing: out of bounds is a Rust panic. -/
def vecGet (v : List Nat) (i : Nat) : Except EmuErr Nat :=
  match v.get? i with
  | some b => .ok b
  | none => .error (.rtPanic "index out of bounds")

def Nrom.read (n : Nrom) (addr : Nat) : Except EmuErr Nat :=
  if 0x6000 ≤ addr ∧ addr ≤ 0x7FFF then .ok (n.prg_ram (addr - 0x6000))
  else if 0x8000 ≤ addr ∧ addr ≤ 0xFFFF then
    let mask := if n.num_prg_banks = 1 then 0x3FFF else 0x7FFF
    vecGet n.prg_rom (addr &&& mask)
  else .error (.invalidAddress addr)

def Nrom.write (n : Nrom) (addr byte : Nat) : Except EmuErr Nrom :=
  if 0x6000 ≤ addr ∧ addr ≤ 0x7FFF then
    .ok { n with prg_ram := fupd n.prg_ram (addr - 0x6000) byte }
  else if 0x8000 ≤ addr ∧ addr ≤ 0xFFFF then .error (.readOnly addr)
  else .error (.invalidAddress addr)

def Nrom.ppu_read (n : Nrom) (addr : Nat) (vram : Nat → Nat) :
    Except EmuErr Nat :=
  if addr ≤ 0x1FFF then
    if n.chr_rom.length = 0 then .ok (n.chr_ram addr)
    else vecGet n.chr_rom addr
  else if 0x2000 ≤ addr ∧ addr ≤ 0x3EFF then
    .ok (vram (nametable_addr addr n.mirroring))
  else .error (.ppuInvalidAddress addr)

def Nrom.ppu_write (n : Nrom) (addr byte : Nat) (vram : Nat → Nat) :
    Except EmuErr (Nrom × (Nat → Nat)) :=
  if addr ≤ 0x1FFF then
    if n.chr_rom.length = 0 then
      .ok ({ n with chr_ram := fupd n.chr_ram addr byte }, vram)
    else .error (.ppuReadOnly addr)
  else if 0x2000 ≤ addr ∧ addr ≤ 0x3EFF then
    .ok (n, fupd vram (nametable_addr addr n.mirroring) byte)
  else .error (.ppuInvalidAddress addr)

/-- `mapper0::build_nrom_cart` (the `Nrom` record it constructs). -/
def Nrom.build (prg chr : List Nat) (mirroring : MirrorType) :
    Except EmuErr Nrom :=
  if prg.length = 16 * 1024 ∨ prg.length = 32 * 1024 then
    .ok { prg_rom := prg, prg_ram := fun _ => 0, chr_rom := chr,
          chr_ram := fun _ => 0, mirroring,
          num_prg_banks := prg.length / (16 * 1024) }
  else .error (.msg "Unsupported PRG ROM size for NROM mapper")

/-! ### `cart/mapper1.rs` (`Mmc1`) -/

/-- MMC1 `ControlReg` bitfield accessors. -/
def mmc1_get_mirror (c : Nat) : Nat := c &&& 0b11
def mmc1_get_prg_rom_bank_mode (c : Nat) : Nat := (c >>> 2) &&& 0b11
def mmc1_get_chr_rom_bank_mode (c : Nat) : Bool := (c >>> 4) &&& 1 ≠ 0
/-- `set_prg_rom_bank_mode`: store `v` into bits 3..2. -/
def mmc1_set_prg_rom_bank_mode (c v : Nat) : Nat :=
  (c &&& 0xF3) ||| ((v &&& 0b11) <<< 2)

structure Mmc1 where
  prg_ram : Nat → Nat
  prg_rom : List Nat
  chr_rom : List Nat
  chr_ram : Nat → Nat
  shift_reg : Nat
  control : Nat
  chr_bank0 : Nat
  chr_bank1 : Nat
  prg_bank : Nat
  write_count : Nat
  prg_rom_bank_0_base : Nat
  prg_rom_bank_1_base : Nat
  chr_rom_bank_0_base : Nat
  chr_rom_bank_1_base : Nat
  mirror_type : MirrorType

/-- `Mmc1::update_base_addr`: recompute mirroring and PRG/CHR bank bases from
the latched registers.  The `usize` subtraction in PRG mode 3 is checked
(`prg_rom.len() - 16*1024` underflows for a short ROM). -/
def Mmc1.update_base_addr (m : Mmc1) : Except EmuErr Mmc1 := do
  let mirror_type : MirrorType :=
    match mmc1_get_mirror m.control with
    | 0 => .OneScreenLow
    | 1 => .OneScreenHigh
    | 2 => .Vertical
    | _ => .Horizontal
  -- Set CHR banks
  let (chr0, chr1) :=
    if mmc1_get_chr_rom_bank_mode m.control = false then
      -- 8K CHR ROM mode; bank 1 is just 4K offset from bank 0
      ((m.chr_bank0 >>> 1) * (8 * 1024), (m.chr_bank0 >>> 1) * (8 * 1024) + 4 * 1024)
    else
      -- Two 4K banks
      (m.chr_bank0 * (4 * 1024), m.chr_bank1 * (4 * 1024))
  -- Set PRG banks
  let (prg0, prg1) ←
    match mmc1_get_prg_rom_bank_mode m.control with
    | 0 | 1 =>
        -- One 32K bank
        let base := ((m.prg_bank &&& 0xF) >>> 1) * (32 * 1024)
        pure (base, base + 16 * 1024)
    | 2 =>
        -- Fix first bank at 0, switch 16K bank at 1
        pure (0, (m.prg_bank &&& 0xF) * (16 * 1024))
    | _ =>
        -- Switch 16K bank at 0, fix last bank at 1
        do
          let last ← chkSub m.prg_rom.length (16 * 1024)
          pure ((m.prg_bank &&& 0xF) * (16 * 1024), last)
  .ok { m with mirror_type, chr_rom_bank_0_base := chr0,
               chr_rom_bank_1_base := chr1, prg_rom_bank_0_base := prg0,
               prg_rom_bank_1_base := prg1 }

def Mmc1.map_cpu_addr (m : Mmc1) (addr : Nat) : Nat :=
  if addr &&& 0x4000 = 0 then m.prg_rom_bank_0_base ||| (addr &&& 0x3FFF)
  else m.prg_rom_bank_1_base ||| (addr &&& 0x3FFF)

def Mmc1.map_chr_addr (m : Mmc1) (addr : Nat) : Nat :=
  if addr &&& 0x1000 = 0 then m.chr_rom_bank_0_base + (addr &&& 0xFFF)
  else m.chr_rom_bank_1_base + (addr &&& 0xFFF)

def Mmc1.read (m : Mmc1) (addr : Nat) : Except EmuErr Nat :=
  if 0x6000 ≤ addr ∧ addr ≤ 0x7FFF then .ok (m.prg_ram (addr - 0x6000))
  else if 0x8000 ≤ addr ∧ addr ≤ 0xFFFF then vecGet m.prg_rom (m.map_cpu_addr addr)
  else .error (.invalidAddress addr)

/-- `Mmc1::write`: PRG-RAM writes go through; `$8000-$FFFF` drives the 5-bit
serial shift register protocol. -/
def Mmc1.write (m : Mmc1) (addr byte : Nat) : Except EmuErr Mmc1 := do
  if 0x6000 ≤ addr ∧ addr ≤ 0x7FFF then
    .ok { m with prg_ram := fupd m.prg_ram (addr - 0x6000) byte }
  else if 0x8000 ≤ addr ∧ addr ≤ 0xFFFF then
    if byte &&& 0x80 ≠ 0 then
      Mmc1.update_base_addr
        { m with write_count := 0, shift_reg := 0,
                 control := mmc1_set_prg_rom_bank_mode m.control 0b11 }
    else
      let m := { m with shift_reg := ((byte &&& 1) <<< 4) ||| (m.shift_reg >>> 1) }
      let wc ← chk8 (m.write_count + 1)
      let m := { m with write_count := wc }
      if m.write_count = 5 then
        let m :=
          match (addr >>> 13) &&& 3 with
          | 0 => { m with control := m.shift_reg }
          | 1 => { m with chr_bank0 := m.shift_reg }
          | 2 => { m with chr_bank1 := m.shift_reg }
          | _ => { m with prg_bank := m.shift_reg }
        Mmc1.update_base_addr { m with write_count := 0, shift_reg := 0 }
      else .ok m
  else .error (.invalidAddress addr)

def Mmc1.ppu_read (m : Mmc1) (addr : Nat) (vram : Nat → Nat) :
    Except EmuErr Nat :=
  if addr ≤ 0x1FFF then
    if m.chr_rom.length = 0 then .ok (m.chr_ram (m.map_chr_addr addr))
    else vecGet m.chr_rom (m.map_chr_addr addr)
  else if 0x2000 ≤ addr ∧ addr ≤ 0x3EFF then
    .ok (vram (nametable_addr addr m.mirror_type))
  else .error (.ppuInvalidAddress addr)

def Mmc1.ppu_write (m : Mmc1) (addr byte : Nat) (vram : Nat → Nat) :
    Except EmuErr (Mmc1 × (Nat → Nat)) :=
  if addr ≤ 0x1FFF then
    if m.chr_rom.length = 0 then
      .ok ({ m with chr_ram := fupd m.chr_ram (m.map_chr_addr addr) byte }, vram)
    else .error (.ppuReadOnly addr)
  else if 0x2000 ≤ addr ∧ addr ≤ 0x3EFF then
    .ok (m, fupd vram (nametable_addr addr m.mirror_type) byte)
  else .error (.ppuInvalidAddress addr)

/-! ### `cart/cart.rs` + `cart/mock.rs`: the polymorphic cartridge

The trait object `Box<dyn Cart>` is embedded as a sum of the concrete
mappers built by `cart/builder.rs`, plus the all-errors `MockCartridge`. -/

inductive Cartridge where
  | nrom (n : Nrom)
  | mmc1 (m : Mmc1)
  | mock

def Cartridge.read (c : Cartridge) (addr : Nat) : Except EmuErr Nat :=
  match c with
  | .nrom n => n.read addr
  | .mmc1 m => m.read addr
  | .mock => .error (.invalidAddress addr)

def Cartridge.write (c : Cartridge) (addr byte : Nat) :
    Except EmuErr Cartridge :=
  match c with
  | .nrom n => (n.write addr byte).map .nrom
  | .mmc1 m => (m.write addr byte).map .mmc1
  | .mock => .error (.invalidAddress addr)

def Cartridge.ppu_read (c : Cartridge) (addr : Nat) (vram : Nat → Nat) :
    Except EmuErr Nat :=
  match c with
  | .nrom n => n.ppu_read addr vram
  | .mmc1 m => m.ppu_read addr vram
  | .mock => .error (.invalidAddress addr)

def Cartridge.ppu_write (c : Cartridge) (addr byte : Nat) (vram : Nat → Nat) :
    Except EmuErr (Cartridge × (Nat → Nat)) :=
  match c with
  | .nrom n => (n.ppu_write addr byte vram).map (fun (n, v) => (.nrom n, v))
  | .mmc1 m => (m.ppu_write addr byte vram).map (fun (m, v) => (.mmc1 m, v))
  | .mock => .error (.invalidAddress addr)

/-! ### `ppu/ppu.rs` -/

/-- Set/clear bit `b` of a `u8`-valued register. -/
def bitSet (s b : Nat) (v : Bool) : Nat :=
  if v then s ||| (1 <<< b) else s &&& (0xFF ^^^ (1 <<< b))

/-- Set/clear bit `b` of a `u16`-valued register. -/
def bitSet16 (s b : Nat) (v : Bool) : Nat :=
  if v then s ||| (1 <<< b) else s &&& (0xFFFF ^^^ (1 <<< b))

/-- `fn set_low_byte(x: &mut u16, lsb: u8)`. -/
def set_low_byte (x lsb : Nat) : Nat := (x &&& 0xFF00) ||| lsb

/-! `PpuControl` bitfield accessors. -/
namespace PpuCtrl
def get_nametable_addr (c : Nat) : Nat := c &&& 0b11
def get_vram_inc (c : Nat) : Bool := c.testBit 2
def get_sprite_table_addr (c : Nat) : Bool := c.testBit 3
def get_bg_table_addr (c : Nat) : Bool := c.testBit 4
def get_sprite_size (c : Nat) : Bool := c.testBit 5
def get_nmi_toggle (c : Nat) : Bool := c.testBit 7
end PpuCtrl

/-! `PpuMask` bitfield accessors (field names as in the source). -/
namespace PpuMask
def get_greyscale (m : Nat) : Bool := m.testBit 0
def get_show_bg_left (m : Nat) : Bool := m.testBit 1
def get_show_sprits_left (m : Nat) : Bool := m.testBit 2
def get_show_bg (m : Nat) : Bool := m.testBit 3
def get_show_sprites (m : Nat) : Bool := m.testBit 4
end PpuMask

/-! `PpuAddress` ("loopy") bitfield accessors over a `u16`. -/
namespace PpuAddr
def get_coarse_x (v : Nat) : Nat := v &&& 0x1F
def set_coarse_x (v x : Nat) : Nat := (v &&& (0xFFFF ^^^ 0x1F)) ||| (x &&& 0x1F)
def get_coarse_y (v : Nat) : Nat := (v >>> 5) &&& 0x1F
def set_coarse_y (v x : Nat) : Nat :=
  (v &&& (0xFFFF ^^^ 0x3E0)) ||| ((x &&& 0x1F) <<< 5)
def get_nametable_x (v : Nat) : Bool := v.testBit 10
def set_nametable_x (v : Nat) (b : Bool) : Nat := bitSet16 v 10 b
def get_nametable_y (v : Nat) : Bool := v.testBit 11
def set_nametable_y (v : Nat) (b : Bool) : Nat := bitSet16 v 11 b
def set_nametable (v x : Nat) : Nat :=
  (v &&& (0xFFFF ^^^ 0xC00)) ||| ((x &&& 0b11) <<< 10)
def get_fine_y (v : Nat) : Nat := (v >>> 12) &&& 0x7
def set_fine_y (v x : Nat) : Nat :=
  (v &&& (0xFFFF ^^^ 0x7000)) ||| ((x &&& 0x7) <<< 12)
def get_nametable_lookup_addr (v : Nat) : Nat := v &&& 0xFFF
end PpuAddr

/-! `SpriteAttributes` bitfield accessors. -/
namespace SpriteAttr
def get_palette (a : Nat) : Nat := a &&& 0b11
def get_priority (a : Nat) : Bool := a.testBit 5
def get_flip_horizontal (a : Nat) : Bool := a.testBit 6
def get_flip_vertical (a : Nat) : Bool := a.testBit 7
end SpriteAttr

def NAMETABLE_OFFSET : Nat := 0x2000
def ATTRIBUTE_TABLE_OFFSET : Nat := 0x23C0
def PALETTES_OFFSET : Nat := 0x3F00

structure OamSprite where
  y : Nat
  id : Nat
  attributes : Nat
  x : Nat
deriving DecidableEq, Repr

structure PendingSprite where
  sprite : OamSprite
  row_offset : Nat
  col_offset : Nat
  is_sprite_zero : Bool
deriving DecidableEq, Repr

structure BackgroundState where
  tile_id : Nat
  tile_attribute : Nat
  tile_lsb : Nat
  tile_msb : Nat
  shift_pattern_lsb : Nat
  shift_pattern_msb : Nat
  shift_attribute_lsb : Nat
  shift_attribute_msb : Nat
deriving DecidableEq, Repr

def BackgroundState.default : BackgroundState :=
  { tile_id := 0, tile_attribute := 0, tile_lsb := 0, tile_msb := 0,
    shift_pattern_lsb := 0, shift_pattern_msb := 0,
    shift_attribute_lsb := 0, shift_attribute_msb := 0 }

structure ForegroundState where
  scanline_sprites : List PendingSprite
  sprite_zero_hit : Bool
deriving DecidableEq, Repr

def ForegroundState.default : ForegroundState :=
  { scanline_sprites := [], sprite_zero_hit := false }

/-- `sdl2::pixels::Color` (an external type: an RGB triple). -/
structure Color where
  r : Nat
  g : Nat
  b : Nat
deriving DecidableEq, Repr

def Color.BLACK : Color := { r := 0, g := 0, b := 0 }

/-- A frame is the 240×256 color buffer (the `Rc` handle is flattened). -/
def Frame : Type := Nat → Nat → Color

/-- Memory-mapped PPU register file (`PpuReg`). -/
structure PpuReg where
  control : Nat
  mask : Nat
  status : Nat
  oam_addr : Nat
  ppu_addr_latch : Bool
  ppu_data : Nat
  ppu_data_buffer : Nat
  t_addr : Nat
  v_addr : Nat
  fine_x : Nat
deriving DecidableEq, Repr

def PpuReg.default : PpuReg :=
  { control := 0, mask := 0, status := 0, oam_addr := 0,
    ppu_addr_latch := false, ppu_data := 0, ppu_data_buffer := 0,
    t_addr := 0, v_addr := 0, fine_x := 0 }

structure Ppu where
  buffer : Frame
  /-- The color map is loaded from an external palette file (spec §6);
  modelled as the abstract lookup function it produces. -/
  color_map : Nat → Option Color
  vram : Nat → Nat
  oam : Nat → Nat
  palettes : Nat → Nat
  reg : PpuReg
  odd_frame : Bool
  cycle : Nat
  scanline : Int
  bg : BackgroundState
  fg : ForegroundState

/-- `PpuBuilder::build` with a given color map. -/
def Ppu.build (cm : Nat → Option Color) : Ppu :=
  { buffer := fun _ _ => Color.BLACK, color_map := cm,
    vram := fun _ => 0, oam := fun _ => 0, palettes := fun _ => 0,
    reg := PpuReg.default, odd_frame := false, cycle := 0, scanline := 0,
    bg := BackgroundState.default, fg := ForegroundState.default }

/-- `Ppu::oam_write`: write one OAM byte; the middle 3 bits of byte 2 of a
sprite always read back as 0. -/
def Ppu.oam_write (p : Ppu) (offset data : Nat) : Ppu :=
  let oam := fupd p.oam offset data
  if offset % 4 = 2 then
    { p with oam := fupd oam offset (oam offset &&& 0xE3) }
  else { p with oam := oam }

/-- `Ppu::oam_read`: read sprite `index` (4 bytes) from OAM. -/
def Ppu.oam_read (p : Ppu) (index : Nat) : OamSprite :=
  let off := index <<< 2
  { y := p.oam off, id := p.oam (off + 1), attributes := p.oam (off + 2),
    x := p.oam (off + 3) }

/-- `Ppu::map_palette_addr`. -/
def Ppu.map_palette_addr (p : Ppu) (addr : Nat) : Nat :=
  let a :=
    (if addr = 0x3F10 then 0x3F00
     else if addr = 0x3F14 then 0x3F04
     else if addr = 0x3F18 then 0x3F08
     else if addr = 0x3F1C then 0x3F0C
     else addr) &&& 0x1F
  if PpuMask.get_greyscale p.reg.mask then a &&& 0x30 else a &&& 0x3F

/-- `Ppu::ppu_read`: PPU-space memory read (CHR / nametables via the shared
cartridge, palette RAM internally). -/
def Ppu.ppu_read (p : Ppu) (cart : Cartridge) (addr : Nat) :
    Except EmuErr Nat :=
  if addr ≤ 0x3EFF then cart.ppu_read addr p.vram
  else if addr ≤ 0x3FFF then .ok (p.palettes (p.map_palette_addr addr))
  else .error (.invalidAddress addr)

/-- `Ppu::ppu_write`: PPU-space memory write. -/
def Ppu.ppu_write (p : Ppu) (cart : Cartridge) (addr byte : Nat) :
    Except EmuErr (Ppu × Cartridge) :=
  if addr ≤ 0x3EFF then
    (cart.ppu_write addr byte p.vram).map
      (fun (c, v) => ({ p with vram := v }, c))
  else if addr ≤ 0x3FFF then
    .ok ({ p with palettes := fupd p.palettes (p.map_palette_addr addr) byte },
         cart)
  else .error (.invalidAddress addr)

/-- `Ppu::read`: CPU-visible register read (`$2000-$3FFF`, mirrored every 8
bytes).  Write-only registers yield `WriteOnly` errors. -/
def Ppu.read (p : Ppu) (cart : Cartridge) (addr : Nat) :
    Except EmuErr (Nat × Ppu) :=
  if addr < 0x2000 ∨ addr > 0x3FFF then .error (.invalidAddress addr)
  else if addr &&& 0x7 = 0 then .error (.writeOnly addr)
  else if addr &&& 0x7 = 1 then .error (.writeOnly addr)
  else if addr &&& 0x7 = 2 then
    -- Status register
    let ret := (p.reg.status &&& 0xE0) ||| (p.reg.ppu_data_buffer &&& 0x1F)
    .ok (ret, { p with reg := { p.reg with status := bitSet p.reg.status 7 false,
                                           ppu_addr_latch := false } })
  else if addr &&& 0x7 = 3 then .error (.writeOnly addr)
  else if addr &&& 0x7 = 4 then .ok (p.oam p.reg.oam_addr, p)
  else if addr &&& 0x7 = 5 then .error (.writeOnly addr)
  else if addr &&& 0x7 = 6 then .error (.writeOnly addr)
  else do
    -- $2007 PPUDATA: buffered read; `v > 0x3F00` (strict) bypasses the buffer
    let data := p.reg.ppu_data_buffer
    let fresh ← p.ppu_read cart p.reg.v_addr
    let p := { p with reg := { p.reg with ppu_data_buffer := fresh } }
    let data := if p.reg.v_addr > 0x3F00 then p.reg.ppu_data_buffer else data
    -- `v += 32`/`v += 1` cannot overflow the u16: `ppu_read` succeeded, so
    -- `v ≤ 0x3FFF`.
    let v := p.reg.v_addr + (if PpuCtrl.get_vram_inc p.reg.control then 32 else 1)
    .ok (data, { p with reg := { p.reg with v_addr := v } })

/-- `Ppu::write`: CPU-visible register write.  (On the `$2007` error path the
source increments `v` before propagating the error; the error halts emulation,
so the model folds that unobservable mutation into the error result.) -/
def Ppu.write (p : Ppu) (cart : Cartridge) (addr byte : Nat) :
    Except EmuErr (Ppu × Cartridge) :=
  if addr < 0x2000 ∨ addr > 0x3FFF then .error (.invalidAddress addr)
  else if addr &&& 0x7 = 0 then
    let p := { p with reg := { p.reg with control := byte } }
    let t := PpuAddr.set_nametable p.reg.t_addr (PpuCtrl.get_nametable_addr p.reg.control)
    .ok ({ p with reg := { p.reg with t_addr := t } }, cart)
  else if addr &&& 0x7 = 1 then
    .ok ({ p with reg := { p.reg with mask := byte } }, cart)
  else if addr &&& 0x7 = 2 then .error (.readOnly addr)
  else if addr &&& 0x7 = 3 then
    .ok ({ p with reg := { p.reg with oam_addr := byte } }, cart)
  else if addr &&& 0x7 = 4 then
    .ok ({ p with oam := fupd p.oam p.reg.oam_addr byte }, cart)
  else if addr &&& 0x7 = 5 then
    -- Scroll register
    let p :=
      if p.reg.ppu_addr_latch then
        let t := PpuAddr.set_fine_y (PpuAddr.set_coarse_y p.reg.t_addr (byte >>> 3)) (byte &&& 0x7)
        { p with reg := { p.reg with t_addr := t } }
      else
        let t := PpuAddr.set_coarse_x p.reg.t_addr (byte >>> 3)
        { p with reg := { p.reg with t_addr := t, fine_x := byte &&& 0x7 } }
    .ok ({ p with reg := { p.reg with ppu_addr_latch := ¬p.reg.ppu_addr_latch } },
         cart)
  else if addr &&& 0x7 = 6 then
    let p :=
      if p.reg.ppu_addr_latch then
        -- set lower byte
        let t := set_low_byte p.reg.t_addr byte
        { p with reg := { p.reg with t_addr := t, v_addr := t } }
      else
        -- set high byte
        let t := (p.reg.t_addr &&& 0x00FF) ||| ((byte &&& 0x3F) <<< 8)
        { p with reg := { p.reg with t_addr := t } }
    .ok ({ p with reg := { p.reg with ppu_addr_latch := ¬p.reg.ppu_addr_latch } },
         cart)
  else do
    let (p, cart) ← p.ppu_write cart p.reg.v_addr byte
    let v := p.reg.v_addr + (if PpuCtrl.get_vram_inc p.reg.control then 32 else 1)
    .ok ({ p with reg := { p.reg with v_addr := v } }, cart)

/-- `Ppu::rendering_enabled`. -/
def Ppu.rendering_enabled (p : Ppu) : Bool :=
  PpuMask.get_show_bg p.reg.mask || PpuMask.get_show_sprites p.reg.mask

/-- `Ppu::inc_x`: coarse-X increment with nametable wrap. -/
def Ppu.inc_x (p : Ppu) : Ppu :=
  if p.rendering_enabled then
    -- `cx + 1` is bounded: `cx ≤ 31` from the 5-bit field
    let cx := PpuAddr.get_coarse_x p.reg.v_addr
    let v := PpuAddr.set_coarse_x p.reg.v_addr ((cx + 1) % 32)
    let v :=
      if PpuAddr.get_coarse_x v = 0 then
        -- Wrapped around, go to next nametable
        PpuAddr.set_nametable_x v (¬PpuAddr.get_nametable_x v)
      else v
    { p with reg := { p.reg with v_addr := v } }
  else p

/-- `Ppu::inc_y`: fine/coarse-Y increment with nametable wrap and clamp. -/
def Ppu.inc_y (p : Ppu) : Ppu :=
  if p.rendering_enabled then
    let fy := PpuAddr.get_fine_y p.reg.v_addr
    let cy := PpuAddr.get_coarse_y p.reg.v_addr
    let v := PpuAddr.set_fine_y p.reg.v_addr ((fy + 1) % 8)
    let v :=
      if PpuAddr.get_fine_y v = 0 then
        let v := PpuAddr.set_coarse_y v ((cy + 1) % 30)
        if PpuAddr.get_coarse_y v = 0 then
          PpuAddr.set_nametable_y v (¬PpuAddr.get_nametable_y v)
        else v
      else v
    -- Clamp coarse_y just in case
    let v := PpuAddr.set_coarse_y v (min (PpuAddr.get_coarse_y v) 29)
    { p with reg := { p.reg with v_addr := v } }
  else p

/-- `Ppu::copy_x`. -/
def Ppu.copy_x (p : Ppu) : Ppu :=
  if p.rendering_enabled then
    let v := PpuAddr.set_nametable_x p.reg.v_addr (PpuAddr.get_nametable_x p.reg.t_addr)
    let v := PpuAddr.set_coarse_x v (PpuAddr.get_coarse_x p.reg.t_addr)
    { p with reg := { p.reg with v_addr := v } }
  else p

/-- `Ppu::copy_y`. -/
def Ppu.copy_y (p : Ppu) : Ppu :=
  if p.rendering_enabled then
    let v := PpuAddr.set_fine_y p.reg.v_addr (PpuAddr.get_fine_y p.reg.t_addr)
    let v := PpuAddr.set_nametable_y v (PpuAddr.get_nametable_y p.reg.t_addr)
    let v := PpuAddr.set_coarse_y v (PpuAddr.get_coarse_y p.reg.t_addr)
    { p with reg := { p.reg with v_addr := v } }
  else p

/-- `Ppu::load_bg_shift`: reload the low bytes of the four shift registers. -/
def Ppu.load_bg_shift (p : Ppu) : Ppu :=
  let attr_lo := if p.bg.tile_attribute &&& 0b1 ≠ 0 then 0xFF else 0
  let attr_hi := if p.bg.tile_attribute &&& 0b10 ≠ 0 then 0xFF else 0
  { p with bg := { p.bg with
      shift_pattern_lsb := set_low_byte p.bg.shift_pattern_lsb p.bg.tile_lsb,
      shift_pattern_msb := set_low_byte p.bg.shift_pattern_msb p.bg.tile_msb,
      shift_attribute_lsb := set_low_byte p.bg.shift_attribute_lsb attr_lo,
      shift_attribute_msb := set_low_byte p.bg.shift_attribute_msb attr_hi } }

/-- `Ppu::update_bg_shift`: `<<= 1` on the four u16 shift registers. -/
def Ppu.update_bg_shift (p : Ppu) : Ppu :=
  if PpuMask.get_show_bg p.reg.mask then
    { p with bg := { p.bg with
        shift_pattern_lsb := (p.bg.shift_pattern_lsb <<< 1) &&& 0xFFFF,
        shift_pattern_msb := (p.bg.shift_pattern_msb <<< 1) &&& 0xFFFF,
        shift_attribute_lsb := (p.bg.shift_attribute_lsb <<< 1) &&& 0xFFFF,
        shift_attribute_msb := (p.bg.shift_attribute_msb <<< 1) &&& 0xFFFF } }
  else p

/-- `Ppu::load_bg`: the 8-dot background fetch cadence (`(cycle-1) % 8`). -/
def Ppu.load_bg (p : Ppu) (cart : Cartridge) : Except EmuErr Ppu := do
  let pattern_table_addr := if PpuCtrl.get_bg_table_addr p.reg.control then 0x1000 else 0x0
  match (p.cycle - 1) % 8 with
  | 1 | 3 | 5 => .ok p
  | 0 => do
      let p := p.load_bg_shift
      -- load nametable entry
      let tid ← p.ppu_read cart (PpuAddr.get_nametable_lookup_addr p.reg.v_addr ||| NAMETABLE_OFFSET)
      .ok { p with bg := { p.bg with tile_id := tid } }
  | 2 => do
      -- load attribute for tile
      let addr := ATTRIBUTE_TABLE_OFFSET |||
        (p.reg.v_addr &&& 0xC00) |||
        (PpuAddr.get_coarse_x p.reg.v_addr >>> 2) |||
        ((PpuAddr.get_coarse_y p.reg.v_addr >>> 2) <<< 3)
      let attr ← p.ppu_read cart addr
      let attr := if PpuAddr.get_coarse_y p.reg.v_addr &&& 0b10 ≠ 0 then attr >>> 4 else attr
      let attr := if PpuAddr.get_coarse_x p.reg.v_addr &&& 0b10 ≠ 0 then attr >>> 2 else attr
      .ok { p with bg := { p.bg with tile_attribute := attr &&& 0b11 } }
  | 4 => do
      -- load lsb of tile data (`tile_id*16 + fine_y` fits in the u16)
      let lsb ← p.ppu_read cart
        (pattern_table_addr + (p.bg.tile_id <<< 4) + PpuAddr.get_fine_y p.reg.v_addr)
      .ok { p with bg := { p.bg with tile_lsb := lsb } }
  | 6 => do
      let msb ← p.ppu_read cart
        (pattern_table_addr + (p.bg.tile_id <<< 4) + PpuAddr.get_fine_y p.reg.v_addr + 8)
      .ok { p with bg := { p.bg with tile_msb := msb } }
  | 7 => .ok p.inc_x
  | _ => .error (.rtPanic "impossible")

/-- `Ppu::get_color`: resolve (palette, pixel) to a display color through
palette RAM and the color map. -/
def Ppu.get_color (p : Ppu) (cart : Cartridge) (palette_idx0 pixel0 : Nat)
    (bg : Bool) : Except EmuErr Color := do
  let palette_idx := palette_idx0 &&& 0b11
  let pixel := pixel0 &&& 0b11
  let palette_idx := if pixel = 0 then 0 else palette_idx
  let bg_select := if bg then 0 else 1
  let idx := (bg_select <<< 4) ||| (palette_idx <<< 2) ||| pixel
  let color ← p.ppu_read cart (PALETTES_OFFSET ||| idx)
  match p.color_map color with
  | some c => .ok c
  | none => .error (.msg "Invalid color")

/-- `Ppu::find_sprites_for_scanline` scan loop over the 64 OAM entries:
returns the pending list and whether a ninth sprite set the overflow flag
(`left` is the remaining iteration count). -/
def Ppu.find_sprites_aux (p : Ppu) (sprite_height : Nat) :
    Nat → Nat → List PendingSprite → List PendingSprite × Bool
  | 0, _, acc => (acc, false)
  | left + 1, idx, acc =>
    let sprite := p.oam_read idx
    let diff : Int := p.scanline - (sprite.y : Int)
    if 0 ≤ diff ∧ diff < (sprite_height : Int) then
      if acc.length < 8 then
        let ps : PendingSprite :=
          { sprite, row_offset := diff.toNat, col_offset := 0,
            is_sprite_zero := idx = 0 }
        Ppu.find_sprites_aux p sprite_height left (idx + 1) (acc ++ [ps])
      else (acc, true)
    else Ppu.find_sprites_aux p sprite_height left (idx + 1) acc

/-- `Ppu::find_sprites_for_scanline` (the `assert!(scanline >= 0)` is a
panic). -/
def Ppu.find_sprites_for_scanline (p : Ppu) : Except EmuErr Ppu :=
  if p.scanline < 0 then .error (.rtPanic "assertion failed: scanline >= 0")
  else
    let sprite_height := if PpuCtrl.get_sprite_size p.reg.control then 16 else 8
    let (sprites, overflow) := p.find_sprites_aux sprite_height 64 0 []
    let p := { p with fg := { p.fg with scanline_sprites := sprites } }
    if overflow then
      .ok { p with reg := { p.reg with status := bitSet p.reg.status 5 true } }
    else .ok p

/-- `Ppu::update_sprites`: countdown X / advance column for pending sprites. -/
def Ppu.update_sprites (p : Ppu) : Ppu :=
  if PpuMask.get_show_sprites p.reg.mask then
    let upd := fun (ps : PendingSprite) =>
      if ps.sprite.x > 0 then
        { ps with sprite := { ps.sprite with x := ps.sprite.x - 1 } }
      else if ps.col_offset < 8 then { ps with col_offset := ps.col_offset + 1 }
      else ps
    { p with fg := { p.fg with scanline_sprites := p.fg.scanline_sprites.map upd } }
  else p

/-- `Ppu::get_sprite_pixel`: fetch the 2-bit pixel of a sprite at
(row, column), honoring flips and 8×8 / 8×16 modes.  The source's
`assert!`/`debug_assert!` guards are panics. -/
def Ppu.get_sprite_pixel (p : Ppu) (cart : Cartridge) (sprite : OamSprite)
    (r0 c0 : Nat) : Except EmuErr Nat := do
  if ¬ c0 < 8 then .error (.rtPanic "debug assertion failed: c < 8")
  else if PpuCtrl.get_sprite_size p.reg.control then do
    -- 8x16
    if ¬ r0 < 16 then .error (.rtPanic "debug assertion failed: r < 16")
    else
      let c := if ¬ SpriteAttr.get_flip_horizontal sprite.attributes then 7 - c0 else c0
      let r := if SpriteAttr.get_flip_vertical sprite.attributes then 15 - r0 else r0
      let pattern_base := (sprite.id &&& 1) <<< 12
      let tile_addr_lo := pattern_base ||| ((sprite.id &&& 0xFE) * 16) ||| r
      let tile_addr_hi := tile_addr_lo + 8
      let lo ← p.ppu_read cart tile_addr_lo
      let hi ← p.ppu_read cart tile_addr_hi
      .ok (((if hi.testBit c then 1 else 0) <<< 1) ||| (if lo.testBit c then 1 else 0))
  else do
    -- 8x8
    if ¬ r0 < 8 then .error (.rtPanic "assertion failed: r < 8")
    else
      let pattern_base := (if PpuCtrl.get_sprite_table_addr p.reg.control then 1 else 0) <<< 12
      let c := if ¬ SpriteAttr.get_flip_horizontal sprite.attributes then 7 - c0 else c0
      let r := if SpriteAttr.get_flip_vertical sprite.attributes then 7 - r0 else r0
      let tile_addr_lo := pattern_base ||| (sprite.id * 16) ||| r
      let tile_addr_hi := tile_addr_lo + 8
      let lo ← p.ppu_read cart tile_addr_lo
      let hi ← p.ppu_read cart tile_addr_hi
      .ok (((if hi.testBit c then 1 else 0) <<< 1) ||| (if lo.testBit c then 1 else 0))

/-- The sprite-selection loop of `Ppu::tick`: walk the pending sprites,
remembering pixel/palette/priority/zero of the last examined candidate and
stopping at the first opaque one. -/
def Ppu.pick_sprite_pixel (p : Ppu) (cart : Cartridge) :
    List PendingSprite → Nat × Nat × Bool × Bool →
    Except EmuErr (Nat × Nat × Bool × Bool)
  | [], st => .ok st
  | ps :: rest, st => do
    if ps.sprite.x = 0 ∧ ps.col_offset < 8 then do
      let pix ← p.get_sprite_pixel cart ps.sprite ps.row_offset ps.col_offset
      let st' := (pix, SpriteAttr.get_palette ps.sprite.attributes,
                  SpriteAttr.get_priority ps.sprite.attributes, ps.is_sprite_zero)
      if pix ≠ 0 then .ok st' else p.pick_sprite_pixel cart rest st'
    else p.pick_sprite_pixel cart rest st

/-- `Ppu::tick`: advance one PPU dot.  Returns the optional completed frame
and the optional interrupt request exactly as the source does. -/
def Ppu.tick (p : Ppu) (cart : Cartridge) :
    Except EmuErr ((Option Frame × Option Interrupt) × Ppu) := do
  -- Visible / pre-render scanlines
  let p ←
    if -1 ≤ p.scanline ∧ p.scanline < 240 then do
      let p :=
        if p.scanline = -1 ∧ p.cycle = 1 then
          let st := bitSet (bitSet (bitSet p.reg.status 7 false) 5 false) 6 false
          { p with reg := { p.reg with status := st },
                   fg := { p.fg with sprite_zero_hit := false } }
        else p
      let p ←
        if (2 ≤ p.cycle ∧ p.cycle < 258) ∨ (321 ≤ p.cycle ∧ p.cycle < 338) then do
          let p := p.update_bg_shift
          p.load_bg cart
        else .ok p
      let p := if 2 ≤ p.cycle ∧ p.cycle < 258 then p.update_sprites else p
      let p ←
        if p.cycle = 256 then .ok p.inc_y
        else if p.cycle = 257 then do
          let p := p.load_bg_shift
          let p := p.copy_x
          if 0 ≤ p.scanline then p.find_sprites_for_scanline else .ok p
        else if 280 ≤ p.cycle ∧ p.cycle ≤ 304 ∧ p.scanline = -1 then .ok p.copy_y
        else if p.cycle = 338 ∨ p.cycle = 340 then do
          let tid ← p.ppu_read cart
            (NAMETABLE_OFFSET ||| PpuAddr.get_nametable_lookup_addr p.reg.v_addr)
          .ok { p with bg := { p.bg with tile_id := tid } }
        else .ok p
      if 0 ≤ p.scanline ∧ p.cycle = 340 then p.find_sprites_for_scanline
      else .ok p
    else .ok p
  -- Start of vblank period
  let (p, ret_int) :=
    if p.scanline = 241 ∧ p.cycle = 1 then
      let p := { p with reg := { p.reg with status := bitSet p.reg.status 7 true } }
      if PpuCtrl.get_nmi_toggle p.reg.control then (p, some Interrupt.NonMaskable)
      else (p, none)
    else (p, none)
  -- Background pixel from the shift registers
  let (pixel, palette, bg) :=
    if PpuMask.get_show_bg p.reg.mask then
      -- `fine_x ≤ 7` (masked on write), so `15 - fine_x` does not underflow
      let bit_pos := 15 - p.reg.fine_x
      let pixel0 := if p.bg.shift_pattern_lsb.testBit bit_pos then 1 else 0
      let pixel1 := if p.bg.shift_pattern_msb.testBit bit_pos then 1 else 0
      let pal0 := if p.bg.shift_attribute_lsb.testBit bit_pos then 1 else 0
      let pal1 := if p.bg.shift_attribute_msb.testBit bit_pos then 1 else 0
      ((pixel1 <<< 1) ||| pixel0, (pal1 <<< 1) ||| pal0, true)
    else (0, 0, true)
  -- Sprite pixel and priority rules
  let (p, pixel, palette, bg) ←
    if PpuMask.get_show_sprites p.reg.mask then do
      let (sprite_pixel, sprite_palette, bg_priority, sprite_zero) ←
        p.pick_sprite_pixel cart p.fg.scanline_sprites (0, 0, false, false)
      let bg_transparent := pixel = 0
      let sprite_transparent := sprite_pixel = 0
      if bg_transparent then
        .ok (p, sprite_pixel, sprite_palette, false)
      else if ¬sprite_transparent ∧ ¬bg_transparent then
        let (pixel, palette, bg) :=
          if ¬bg_priority then (sprite_pixel, sprite_palette, false)
          else (pixel, palette, bg)
        -- Check for sprite zero collision
        let p :=
          if sprite_zero ∧ PpuMask.get_show_bg p.reg.mask ∧
             PpuMask.get_show_sprites p.reg.mask then
            if ¬PpuMask.get_show_bg_left p.reg.mask ∨
               ¬PpuMask.get_show_sprits_left p.reg.mask then
              if 9 ≤ p.cycle ∧ p.cycle < 258 then
                { p with reg := { p.reg with status := bitSet p.reg.status 6 true },
                         fg := { p.fg with sprite_zero_hit := true } }
              else p
            else
              if 1 ≤ p.cycle ∧ p.cycle < 258 then
                { p with reg := { p.reg with status := bitSet p.reg.status 6 true },
                         fg := { p.fg with sprite_zero_hit := true } }
              else p
          else p
        .ok (p, pixel, palette, bg)
      else .ok (p, pixel, palette, bg)
    else .ok (p, pixel, palette, bg)
  -- Emit the pixel (the `scanline as usize` of a negative scanline is a huge
  -- index, so the `row < 240` bounds check fails for negative scanlines)
  let p ←
    if p.cycle > 0 ∧ p.rendering_enabled then
      if 0 ≤ p.scanline ∧ p.scanline < 240 ∧ p.cycle - 1 < 256 then do
        let color ← p.get_color cart palette pixel bg
        let row := p.scanline.toNat
        let col := p.cycle - 1
        .ok { p with buffer := fun i j =>
                if i = row ∧ j = col then color else p.buffer i j }
      else .ok p
    else .ok p
  -- Advance dot / scanline counters; yield the frame at end of scanline 260
  let p := { p with cycle := p.cycle + 1 }
  if p.cycle ≥ 341 then
    let p := { p with cycle := 0, scanline := p.scanline + 1 }
    if p.scanline ≥ 261 then
      let p := { p with scanline := -1, odd_frame := ¬p.odd_frame }
      .ok ((some p.buffer, ret_int), p)
    else .ok ((none, ret_int), p)
  else .ok ((none, ret_int), p)

/-! ### `mem/ram.rs` -/

def RAM_SIZE : Nat := 0x800

/-- `Ram::read`: 2 KiB, mirrored below `$2000`. -/
def Ram.read (mem : Nat → Nat) (addr : Nat) : Except EmuErr Nat :=
  if addr > 0x1FFF then .error (.invalidAddress addr)
  else .ok (mem (addr &&& (RAM_SIZE - 1)))

def Ram.write (mem : Nat → Nat) (addr byte : Nat) :
    Except EmuErr (Nat → Nat) :=
  if addr > 0x1FFF then .error (.invalidAddress addr)
  else .ok (fupd mem (addr &&& (RAM_SIZE - 1)) byte)

/-- `Ram::from`: initialize the front of RAM from a byte slice (callers pass
at most 2 KiB; a longer slice is a panic in the source). -/
def Ram.from (bytes : List Nat) : Nat → Nat :=
  fun i => bytes.getD i 0

/-! ### `mem/bus.rs` -/

structure MemoryBus where
  ram : Nat → Nat
  ppu : Ppu
  /-- The cartridge cell shared between the bus and the PPU. -/
  cart : Cartridge
  p1 : Option Controller
  p2 : Option Controller

/-- `MemoryBus::read`: address decode for CPU reads. -/
def MemoryBus.read (b : MemoryBus) (addr : Nat) :
    Except EmuErr (Nat × MemoryBus) :=
  if addr ≤ 0x1FFF then (Ram.read b.ram addr).map (fun v => (v, b))
  else if addr ≤ 0x3FFF then
    (b.ppu.read b.cart addr).map (fun (v, p) => (v, { b with ppu := p }))
  else if addr ≤ 0x4015 then .ok (0, b)
  else if addr = 0x4016 then
    match b.p1 with
    | some p1 =>
        let (v, p1) := p1.read
        .ok (v, { b with p1 := some p1 })
    | none => .ok (0, b)
  else if addr = 0x4017 then
    match b.p2 with
    | some p2 =>
        let (v, p2) := p2.read
        .ok (v, { b with p2 := some p2 })
    | none => .ok (0, b)
  else if 0x4020 ≤ addr ∧ addr ≤ 0xFFFF then
    (b.cart.read addr).map (fun v => (v, b))
  else .error (.invalidAddress addr)

/-- `MemoryBus::write`: address decode for CPU writes. -/
def MemoryBus.write (b : MemoryBus) (addr byte : Nat) :
    Except EmuErr MemoryBus :=
  if addr ≤ 0x1FFF then (Ram.write b.ram addr byte).map (fun r => { b with ram := r })
  else if addr ≤ 0x3FFF then
    (b.ppu.write b.cart addr byte).map
      (fun (p, c) => { b with ppu := p, cart := c })
  else if addr = 0x4016 then
    match b.p1 with
    | some p1 => .ok { b with p1 := some (p1.write byte) }
    | none => .ok b
  else if addr = 0x4017 then
    match b.p2 with
    | some p2 => .ok { b with p2 := some (p2.write byte) }
    | none => .ok b
  else if addr ≤ 0x4015 then .ok b
  else if 0x4020 ≤ addr ∧ addr ≤ 0xFFFF then
    (b.cart.write addr byte).map (fun c => { b with cart := c })
  else .error (.invalidAddress addr)

/-! ### `cpu/cpu.rs`: CPU state -/

def NUM_TICKS_PER_CPU_CYCLE : Nat := 3

structure Cpu where
  reg : Registers
  bus : MemoryBus
  interrupt : Option Interrupt
  /-- Cycles left before next instruction (`u16`). -/
  cycles_left : Nat
  /-- Ticks left before next CPU cycle (`u8`). -/
  ticks_left : Nat
  /-- Number of CPU cycles elapsed (`u64`). -/
  num_cpu_cycles : Nat
  /-- Number of system ticks elapsed (`u64`). -/
  num_system_ticks : Nat

/-- `Cpu::mock`: a CPU over a RAM-only bus (mock cartridge, no controllers),
as used by the repository's own unit tests. -/
def Cpu.mock (init_ram : Option (List Nat)) (cm : Nat → Option Color) : Cpu :=
  { reg := Registers.default,
    bus := { ram := (init_ram.map Ram.from).getD (fun _ => 0),
             ppu := Ppu.build cm, cart := .mock, p1 := none, p2 := none },
    interrupt := none, cycles_left := 0, ticks_left := 0,
    num_cpu_cycles := 0, num_system_ticks := 0 }

/-- `Cpu::read`: plain bus read. -/
def Cpu.read (cpu : Cpu) (addr : Nat) : Except EmuErr (Nat × Cpu) :=
  (cpu.bus.read addr).map (fun (v, b) => (v, { cpu with bus := b }))

/-- One step of the OAM-DMA copy loop in `Cpu::write`. -/
def Cpu.dma_step (byte : Nat) (acc : Except EmuErr Cpu) (off : Nat) :
    Except EmuErr Cpu := do
  let cpu ← acc
  let addr := make_address off byte
  let (data, cpu) ← cpu.read addr
  .ok { cpu with bus := { cpu.bus with ppu := cpu.bus.ppu.oam_write off data } }

/-- `Cpu::write`: a write to `$4014` is intercepted and performs the whole
OAM DMA at once (256 reads from page `byte << 8` into OAM offsets 0..=255),
then sets `cycles_left` to 512 plus 1 if the elapsed CPU cycle count is odd;
anything else goes to the bus. -/
def Cpu.write (cpu : Cpu) (addr byte : Nat) : Except EmuErr Cpu := do
  if addr = 0x4014 then
    let cpu ← (List.range 256).foldl (Cpu.dma_step byte) (.ok cpu)
    let cl := 512
    let cl := if cpu.num_cpu_cycles % 2 = 1 then cl + 1 else cl
    .ok { cpu with cycles_left := cl }
  else
    (cpu.bus.write addr byte).map (fun b => { cpu with bus := b })

/-! ### `cpu/isa.rs` -/

inductive AddressingMode where
  | Accumulator
  | Absolute (addr : Nat)
  | AbsoluteX (addr : Nat)
  | AbsoluteY (addr : Nat)
  | Immediate (val : Nat)
  | Implied
  | Indirect (addr : Nat)
  | XIndirect (offset : Nat)
  | IndirectY (offset : Nat)
  | Relative (offset : Nat)
  | ZeroPage (offset : Nat)
  | ZeroPageX (offset : Nat)
  | ZeroPageY (offset : Nat)
deriving DecidableEq, Repr

inductive Opcode where
  | ADC | AND | ASL | BCC | BCS | BEQ | BIT | BMI | BNE | BPL | BRK | BVC
  | BVS | CLC | CLD | CLI | CLV | CMP | CPX | CPY | DEC | DEX | DEY | EOR
  | INC | INX | INY | JMP | JSR | LAX | LDA | LDX | LDY | LSR | NOP | ORA
  | PHA | PHP | PLA | PLP | ROL | ROR | RTI | RTS | SBC | SEC | SED | SEI
  | STA | STX | STY | TAX | TAY | TSX | TXA | TXS | TYA | INVALID
deriving DecidableEq, Repr

structure Instr where
  op : Opcode
  mode : AddressingMode
deriving DecidableEq, Repr

/-! ### `cpu/decode.rs` -/

/-- The operand-less addressing-mode tag used by the opcode matrix. -/
inductive Mode where
  | Acc | Abs | AbsX | AbsY | Imm | Imp | Ind | XInd | IndY | Rel | Zpg
  | ZpgX | ZpgY
deriving DecidableEq, Repr

/-- The matrix entry for unassigned opcodes. -/
def INV_TUP : Opcode × Mode × Nat := (.INVALID, .Imp, 0)

open Opcode Mode in
/-- The 16×16 opcode matrix `instr_lookup::LOOKUP`: `(opcode, mode,
base_cycles)` indexed by high/low nibble of the opcode byte. -/
def LOOKUP : List (List (Opcode × Mode × Nat)) :=
  [ [(BRK,Imp,7), (ORA,XInd,6), INV_TUP, INV_TUP, (NOP,Zpg,3), (ORA,Zpg,3), (ASL,Zpg,5), INV_TUP, (PHP,Imp,3), (ORA,Imm,2), (ASL,Acc,2), INV_TUP, INV_TUP, (ORA,Abs,4), (ASL,Abs,6), INV_TUP],
    [(BPL,Rel,2), (ORA,IndY,5), INV_TUP, INV_TUP, (NOP,ZpgX,4), (ORA,ZpgX,4), (ASL,ZpgX,6), INV_TUP, (CLC,Imp,2), (ORA,AbsY,4), (NOP,Imp,2), INV_TUP, INV_TUP, (ORA,AbsX,4), (ASL,AbsX,7), INV_TUP],
    [(JSR,Abs,6), (AND,XInd,6), INV_TUP, INV_TUP, (BIT,Zpg,3), (AND,Zpg,3), (ROL,Zpg,5), INV_TUP, (PLP,Imp,4), (AND,Imm,2), (ROL,Acc,2), INV_TUP, (BIT,Abs,4), (AND,Abs,4), (ROL,Abs,6), INV_TUP],
    [(BMI,Rel,2), (AND,IndY,5), INV_TUP, INV_TUP, (NOP,ZpgX,4), (AND,ZpgX,4), (ROL,ZpgX,6), INV_TUP, (SEC,Imp,2), (AND,AbsY,4), (NOP,Imp,2), INV_TUP, INV_TUP, (AND,AbsX,4), (ROL,AbsX,7), INV_TUP],
    [(RTI,Imp,6), (EOR,XInd,6), INV_TUP, INV_TUP, (NOP,Zpg,3), (EOR,Zpg,3), (LSR,Zpg,5), INV_TUP, (PHA,Imp,3), (EOR,Imm,2), (LSR,Acc,2), INV_TUP, (JMP,Abs,3), (EOR,Abs,4), (LSR,Abs,6), INV_TUP],
    [(BVC,Rel,2), (EOR,IndY,5), INV_TUP, INV_TUP, (NOP,ZpgX,4), (EOR,ZpgX,4), (LSR,ZpgX,6), INV_TUP, (CLI,Imp,2), (EOR,AbsY,4), (NOP,Imp,2), INV_TUP, INV_TUP, (EOR,AbsX,4), (LSR,AbsX,7), INV_TUP],
    [(RTS,Imp,6), (ADC,XInd,6), INV_TUP, INV_TUP, (NOP,Zpg,3), (ADC,Zpg,3), (ROR,Zpg,5), INV_TUP, (PLA,Imp,4), (ADC,Imm,2), (ROR,Acc,2), INV_TUP, (JMP,Ind,5), (ADC,Abs,4), (ROR,Abs,6), INV_TUP],
    [(BVS,Rel,2), (ADC,IndY,5), INV_TUP, INV_TUP, (NOP,ZpgX,4), (ADC,ZpgX,4), (ROR,ZpgX,6), INV_TUP, (SEI,Imp,2), (ADC,AbsY,4), (NOP,Imp,2), INV_TUP, INV_TUP, (ADC,AbsX,4), (ROR,AbsX,7), INV_TUP],
    [(NOP,Imm,2), (STA,XInd,6), INV_TUP, INV_TUP, (STY,Zpg,3), (STA,Zpg,3), (STX,Zpg,3), INV_TUP, (DEY,Imp,2), (NOP,Imm,2), (TXA,Imp,2), INV_TUP, (STY,Abs,4), (STA,Abs,4), (STX,Abs,4), INV_TUP],
    [(BCC,Rel,2), (STA,IndY,6), INV_TUP, INV_TUP, (STY,ZpgX,4), (STA,ZpgX,4), (STX,ZpgY,4), INV_TUP, (TYA,Imp,2), (STA,AbsY,5), (TXS,Imp,2), INV_TUP, INV_TUP, (STA,AbsX,5), INV_TUP, INV_TUP],
    [(LDY,Imm,2), (LDA,XInd,6), (LDX,Imm,2), INV_TUP, (LDY,Zpg,3), (LDA,Zpg,3), (LDX,Zpg,3), INV_TUP, (TAY,Imp,2), (LDA,Imm,2), (TAX,Imp,2), INV_TUP, (LDY,Abs,4), (LDA,Abs,4), (LDX,Abs,4), INV_TUP],
    [(BCS,Rel,2), (LDA,IndY,5), INV_TUP, INV_TUP, (LDY,ZpgX,4), (LDA,ZpgX,4), (LDX,ZpgY,4), INV_TUP, (CLV,Imp,2), (LDA,AbsY,4), (TSX,Imp,2), INV_TUP, (LDY,AbsX,4), (LDA,AbsX,4), (LDX,AbsY,4), INV_TUP],
    [(CPY,Imm,2), (CMP,XInd,6), INV_TUP, INV_TUP, (CPY,Zpg,3), (CMP,Zpg,3), (DEC,Zpg,5), INV_TUP, (INY,Imp,2), (CMP,Imm,2), (DEX,Imp,2), INV_TUP, (CPY,Abs,4), (CMP,Abs,4), (DEC,Abs,6), INV_TUP],
    [(BNE,Rel,2), (CMP,IndY,5), INV_TUP, INV_TUP, (NOP,ZpgX,4), (CMP,ZpgX,4), (DEC,ZpgX,6), INV_TUP, (CLD,Imp,2), (CMP,AbsY,4), (NOP,Imp,2), INV_TUP, INV_TUP, (CMP,AbsX,4), (DEC,AbsX,7), INV_TUP],
    [(CPX,Imm,2), (SBC,XInd,6), INV_TUP, INV_TUP, (CPX,Zpg,3), (SBC,Zpg,3), (INC,Zpg,5), INV_TUP, (INX,Imp,2), (SBC,Imm,2), (NOP,Imp,2), INV_TUP, (CPX,Abs,4), (SBC,Abs,4), (INC,Abs,6), INV_TUP],
    [(BEQ,Rel,2), (SBC,IndY,5), INV_TUP, INV_TUP, (NOP,ZpgX,4), (SBC,ZpgX,4), (INC,ZpgX,6), INV_TUP, (SED,Imp,2), (SBC,AbsY,4), (NOP,Imp,2), INV_TUP, INV_TUP, (SBC,AbsX,4), (INC,AbsX,7), INV_TUP] ]

/-- `instr_lookup::address_mode_to_mode`. -/
def address_mode_to_mode : AddressingMode → Mode
  | .Accumulator => .Acc
  | .Absolute _ => .Abs
  | .AbsoluteX _ => .AbsX
  | .AbsoluteY _ => .AbsY
  | .Immediate _ => .Imm
  | .Implied => .Imp
  | .Indirect _ => .Ind
  | .XIndirect _ => .XInd
  | .IndirectY _ => .IndY
  | .Relative _ => .Rel
  | .ZeroPage _ => .Zpg
  | .ZeroPageX _ => .ZpgX
  | .ZeroPageY _ => .ZpgY

/-- `instr_lookup::num_cycles_for_instr`: base cycles of an instruction,
looked up by `(opcode, mode)` over the matrix entries. -/
def num_cycles_for_instr (i : Instr) : Option Nat :=
  (LOOKUP.flatten.find?
    (fun (op, mode, _) => op = i.op ∧ mode = address_mode_to_mode i.mode)).map
    (fun (_, _, n) => n)

/-- `decode::read_next_byte`: read the byte at PC, then advance PC. -/
def read_next_byte (cpu : Cpu) : Except EmuErr (Nat × Cpu) := do
  let (byte, bus) ← cpu.bus.read cpu.reg.pc
  let cpu := { cpu with bus := bus }
  let pc ← chk16 (cpu.reg.pc + 1)
  .ok (byte, { cpu with reg := { cpu.reg with pc := pc } })

/-- `decode::read_little_endian_u16`. -/
def read_little_endian_u16 (cpu : Cpu) : Except EmuErr (Nat × Cpu) := do
  let (lo, cpu) ← read_next_byte cpu
  let (hi, cpu) ← read_next_byte cpu
  .ok (make_address lo hi, cpu)

/-- `decode::decode_instr`: fetch the opcode byte, look it up in the matrix
and read its operands. -/
def decode_instr (cpu : Cpu) : Except EmuErr (Instr × Cpu) := do
  let (next_instr, cpu) ← read_next_byte cpu
  let row := (next_instr &&& 0xF0) >>> 4
  let col := next_instr &&& 0xF
  let (opcode, mode, _) := (LOOKUP.getD row []).getD col INV_TUP
  if opcode = .INVALID then .error (.invalidOpcode next_instr)
  else do
    let (am, cpu) ←
      match mode with
      | .Acc => pure (AddressingMode.Accumulator, cpu)
      | .Abs => (read_little_endian_u16 cpu).map (fun (a, c) => (AddressingMode.Absolute a, c))
      | .AbsX => (read_little_endian_u16 cpu).map (fun (a, c) => (AddressingMode.AbsoluteX a, c))
      | .AbsY => (read_little_endian_u16 cpu).map (fun (a, c) => (AddressingMode.AbsoluteY a, c))
      | .Imm => (read_next_byte cpu).map (fun (b, c) => (AddressingMode.Immediate b, c))
      | .Imp => pure (AddressingMode.Implied, cpu)
      | .Ind => (read_little_endian_u16 cpu).map (fun (a, c) => (AddressingMode.Indirect a, c))
      | .XInd => (read_next_byte cpu).map (fun (b, c) => (AddressingMode.XIndirect b, c))
      | .IndY => (read_next_byte cpu).map (fun (b, c) => (AddressingMode.IndirectY b, c))
      | .Rel => (read_next_byte cpu).map (fun (b, c) => (AddressingMode.Relative b, c))
      | .Zpg => (read_next_byte cpu).map (fun (b, c) => (AddressingMode.ZeroPage b, c))
      | .ZpgX => (read_next_byte cpu).map (fun (b, c) => (AddressingMode.ZeroPageX b, c))
      | .ZpgY => (read_next_byte cpu).map (fun (b, c) => (AddressingMode.ZeroPageY b, c))
    .ok ({ op := opcode, mode := am }, cpu)

/-- Modelled from the spec: `fetch_instr` (imported by `cpu/cpu.rs` from
`cpu/decode.rs` but missing from the source snapshot).  Per spec §4.3/§9 it
decodes the instruction at PC through the 256-entry opcode matrix (advancing
PC past the operands) and reports the matrix's base cycle count for it. -/
def fetch_instr (cpu : Cpu) : Except EmuErr ((Instr × Nat) × Cpu) := do
  let (i, cpu) ← decode_instr cpu
  match num_cycles_for_instr i with
  | some n => .ok ((i, n), cpu)
  | none => .error (.msg "no cycle count for instruction")

/-! ### `cpu/exec.rs` -/

/-- Modelled from the spec: `is_negative` lives in the missing `cpu/utils.rs`;
per spec §4.3 the negative test of a byte is `(r & 0x80) != 0`. -/
def is_negative (v : Nat) : Bool := v &&& 0x80 ≠ 0

/-- `u8::wrapping_neg`. -/
def wneg8 (n : Nat) : Nat := (256 - n % 256) % 256

/-- `deref::effective_addr`. -/
def effective_addr (am : AddressingMode) (cpu : Cpu) :
    Except EmuErr (Nat × Cpu) := do
  match am with
  | .Absolute addr => .ok (addr, cpu)
  | .AbsoluteX addr => do
      -- unchecked u16 `addr + x`
      let a ← chk16 (addr + cpu.reg.x)
      .ok (a, cpu)
  | .AbsoluteY addr => .ok (wadd16 addr cpu.reg.y, cpu)
  | .XIndirect offset => do
      let (lo, cpu) ← cpu.read (((offset + cpu.reg.x) % 256) &&& 0xFF)
      let (hi, cpu) ← cpu.read (((offset + cpu.reg.x + 1) % 256) &&& 0xFF)
      .ok (make_address lo hi, cpu)
  | .IndirectY offset => do
      let (lo, cpu) ← cpu.read offset
      let (hi, cpu) ← cpu.read ((offset + 1) % 256)
      .ok (wadd16 (make_address lo hi) cpu.reg.y, cpu)
  | .ZeroPage offset => .ok (offset, cpu)
  | .ZeroPageX offset => .ok ((offset + cpu.reg.x) &&& 0xFF, cpu)
  | .ZeroPageY offset => .ok ((offset + cpu.reg.y) &&& 0xFF, cpu)
  | _ => .error (.rtPanic "has no effective address")

/-- `deref::deref_byte`. -/
def deref_byte (am : AddressingMode) (cpu : Cpu) :
    Except EmuErr (Nat × Cpu) := do
  match am with
  | .Accumulator => .ok (cpu.reg.a, cpu)
  | .Immediate val => .ok (val, cpu)
  | .Implied | .Indirect _ | .Relative _ =>
      .error (.rtPanic "cannot be dereferenced into a byte value")
  | _ => do
      let (addr, cpu) ← effective_addr am cpu
      cpu.read addr

/-- `deref::deref_address` (with the 6502 `JMP (addr)` page-cross bug). -/
def deref_address (am : AddressingMode) (cpu : Cpu) :
    Except EmuErr (Nat × Cpu) := do
  match am with
  | .Indirect addr =>
      if addr &&& 0xFF = 0xFF then do
        -- Simulate hardware bug when crossing pages
        let (lo, cpu) ← cpu.read addr
        let (hi, cpu) ← cpu.read (addr &&& 0xFF00)
        .ok (make_address lo hi, cpu)
      else do
        let (lo, cpu) ← cpu.read addr
        -- `addr + 1 ≤ 0xFFFF` since the low byte of `addr` is not `0xFF`
        let (hi, cpu) ← cpu.read (addr + 1)
        .ok (make_address lo hi, cpu)
  | .Absolute addr => .ok (addr, cpu)
  | .Relative offset =>
      if is_negative offset then do
        let a ← chkSub cpu.reg.pc (wneg8 offset)
        .ok (a, cpu)
      else do
        let a ← chk16 (cpu.reg.pc + offset)
        .ok (a, cpu)
  | _ => .error (.rtPanic "deref_address on this mode")

/-- `exec::cross_page_boundary` (non-fallible in the source: its internal
reads use `.unwrap()`, so errors there are panics). -/
def cross_page_boundary (am : AddressingMode) (cpu : Cpu) :
    Except EmuErr (Bool × Cpu) := do
  match am with
  | .AbsoluteX addr => do
      let s ← chk16 (addr + cpu.reg.x)
      .ok (page_num addr ≠ page_num s, cpu)
  | .AbsoluteY addr => .ok (page_num addr ≠ page_num (wadd16 addr cpu.reg.y), cpu)
  | .IndirectY offset => do
      let (lo, cpu) ← cpu.read offset
      let (hi, cpu) ← cpu.read ((offset + 1) % 256)
      let effective := make_address lo hi
      .ok (page_num effective ≠ page_num (wadd16 effective cpu.reg.y), cpu)
  | .Relative _ => do
      let (addr, cpu) ← deref_address am cpu
      .ok (page_num cpu.reg.pc ≠ page_num addr, cpu)
  | _ => .ok (false, cpu)

/-- `exec::set_negative_flag`. -/
def set_negative_flag (cpu : Cpu) (val : Nat) : Cpu :=
  { cpu with reg := { cpu.reg with
      status := flagSet cpu.reg.status StatusFlags.NEGATIVE (is_negative val) } }

/-- `exec::set_zero_flag`. -/
def set_zero_flag (cpu : Cpu) (val : Nat) : Cpu :=
  { cpu with reg := { cpu.reg with
      status := flagSet cpu.reg.status StatusFlags.ZERO (val = 0) } }

/-- `exec::push_stack`: write at `$0100 + SP`, then `sp -= 1` (checked). -/
def push_stack (cpu : Cpu) (byte : Nat) : Except EmuErr Cpu := do
  -- `sp as u16 + STACK_OFFSET ≤ 0x1FF`: no u16 overflow
  let sp := cpu.reg.sp + STACK_OFFSET
  let cpu ← cpu.write sp byte
  let sp' ← chkSub cpu.reg.sp 1
  .ok { cpu with reg := { cpu.reg with sp := sp' } }

/-- `exec::push_stack_addr`: high byte first, then low byte. -/
def push_stack_addr (cpu : Cpu) (addr : Nat) : Except EmuErr Cpu := do
  let cpu ← push_stack cpu (hi_byte addr)
  push_stack cpu (lo_byte addr)

/-- `exec::pop_stack`: `sp += 1` (checked), then read at `$0100 + SP`. -/
def pop_stack (cpu : Cpu) : Except EmuErr (Nat × Cpu) := do
  let sp' ← chk8 (cpu.reg.sp + 1)
  let cpu := { cpu with reg := { cpu.reg with sp := sp' } }
  cpu.read (cpu.reg.sp + STACK_OFFSET)

/-- `exec::pop_stack_addr`: low byte first, then high byte. -/
def pop_stack_addr (cpu : Cpu) : Except EmuErr (Nat × Cpu) := do
  let (lo, cpu) ← pop_stack cpu
  let (hi, cpu) ← pop_stack cpu
  .ok (make_address lo hi, cpu)

/-- `exec::branch_on_predicate`. -/
def branch_on_predicate (am : AddressingMode) (cpu : Cpu) (take_branch : Bool) :
    Except EmuErr (Nat × Cpu) := do
  let (cross, cpu) ← cross_page_boundary am cpu
  if take_branch then do
    let (addr, cpu) ← deref_address am cpu
    let cpu := { cpu with reg := { cpu.reg with pc := addr } }
    if cross then .ok (2, cpu) else .ok (1, cpu)
  else .ok (0, cpu)

/-- `exec::compare`: CMP/CPX/CPY common flag logic. -/
def compare (am : AddressingMode) (cpu : Cpu) (val : Nat) :
    Except EmuErr (Nat × Cpu) := do
  let (cross, cpu) ← cross_page_boundary am cpu
  let (m, cpu) ← deref_byte am cpu
  let diff := wsub8 val m
  let st := flagSet cpu.reg.status StatusFlags.NEGATIVE (diff &&& 0x80 ≠ 0)
  let st := flagSet st StatusFlags.ZERO (m = val)
  let st := flagSet st StatusFlags.CARRY (m ≤ val)
  let cpu := { cpu with reg := { cpu.reg with status := st } }
  if cross then .ok (1, cpu) else .ok (0, cpu)

def adc (am : AddressingMode) (cpu : Cpu) : Except EmuErr (Nat × Cpu) := do
  let (m, cpu) ← deref_byte am cpu
  let (crossed, cpu) ← cross_page_boundary am cpu
  let c := if flagContains cpu.reg.status StatusFlags.CARRY then 1 else 0
  let a := cpu.reg.a
  let sum := a + m + c
  let masked := sum &&& 0xFF
  let cpu := { cpu with reg := { cpu.reg with a := masked } }
  let cpu := set_negative_flag cpu masked
  let cpu := set_zero_flag cpu masked
  let carry := sum &&& 0xFF00 ≠ 0
  let st := flagSet cpu.reg.status StatusFlags.CARRY carry
  let st := flagSet st StatusFlags.OVERFLOW
    ((is_negative m = is_negative a) ∧ (is_negative masked ≠ is_negative a))
  let cpu := { cpu with reg := { cpu.reg with status := st } }
  if crossed then .ok (1, cpu) else .ok (0, cpu)

def and_op (am : AddressingMode) (cpu : Cpu) : Except EmuErr (Nat × Cpu) := do
  let a := cpu.reg.a
  let (m, cpu) ← deref_byte am cpu
  let (crossed, cpu) ← cross_page_boundary am cpu
  let cpu := { cpu with reg := { cpu.reg with a := a &&& m } }
  let cpu := set_negative_flag cpu cpu.reg.a
  let cpu := set_zero_flag cpu cpu.reg.a
  if crossed then .ok (1, cpu) else .ok (0, cpu)

def asl (am : AddressingMode) (cpu : Cpu) : Except EmuErr (Nat × Cpu) := do
  if am = .Accumulator then
    let carry := is_negative cpu.reg.a
    -- u8 `<<= 1` discards the high bit
    let cpu := { cpu with reg := { cpu.reg with a := (cpu.reg.a <<< 1) &&& 0xFF } }
    let cpu := { cpu with reg := { cpu.reg with
      status := flagSet cpu.reg.status StatusFlags.CARRY carry } }
    let cpu := set_zero_flag cpu cpu.reg.a
    let cpu := set_negative_flag cpu cpu.reg.a
    .ok (0, cpu)
  else do
    let (addr, cpu) ← effective_addr am cpu
    let (val, cpu) ← deref_byte am cpu
    let carry := is_negative val
    let cpu ← cpu.write addr ((val <<< 1) &&& 0xFF)
    let cpu := { cpu with reg := { cpu.reg with
      status := flagSet cpu.reg.status StatusFlags.CARRY carry } }
    let cpu := set_zero_flag cpu ((val <<< 1) &&& 0xFF)
    let cpu := set_negative_flag cpu ((val <<< 1) &&& 0xFF)
    .ok (0, cpu)

def bcc (am : AddressingMode) (cpu : Cpu) : Except EmuErr (Nat × Cpu) :=
  branch_on_predicate am cpu (¬ flagContains cpu.reg.status StatusFlags.CARRY)

def bcs (am : AddressingMode) (cpu : Cpu) : Except EmuErr (Nat × Cpu) :=
  branch_on_predicate am cpu (flagContains cpu.reg.status StatusFlags.CARRY)

def beq (am : AddressingMode) (cpu : Cpu) : Except EmuErr (Nat × Cpu) :=
  branch_on_predicate am cpu (flagContains cpu.reg.status StatusFlags.ZERO)

def bit_op (am : AddressingMode) (cpu : Cpu) : Except EmuErr (Nat × Cpu) := do
  let (m, cpu) ← deref_byte am cpu
  let st := flagSet cpu.reg.status StatusFlags.NEGATIVE (m &&& 0b10000000 ≠ 0)
  let st := flagSet st StatusFlags.OVERFLOW (m &&& 0b01000000 ≠ 0)
  let cpu := { cpu with reg := { cpu.reg with status := st } }
  let cpu := set_zero_flag cpu (cpu.reg.a &&& m)
  .ok (0, cpu)

def bmi (am : AddressingMode) (cpu : Cpu) : Except EmuErr (Nat × Cpu) :=
  branch_on_predicate am cpu (flagContains cpu.reg.status StatusFlags.NEGATIVE)

def bne (am : AddressingMode) (cpu : Cpu) : Except EmuErr (Nat × Cpu) :=
  branch_on_predicate am cpu (¬ flagContains cpu.reg.status StatusFlags.ZERO)

def bpl (am : AddressingMode) (cpu : Cpu) : Except EmuErr (Nat × Cpu) :=
  branch_on_predicate am cpu (¬ flagContains cpu.reg.status StatusFlags.NEGATIVE)

/-- `exec::brk`: pushes `PC+2`, sets `I`, builds `flags = status | BREAK` into
a local that is then unused, pushes `status` (without `B`/`U` forced), and
jumps through `$FFFE/$FFFF`. -/
def brk (_am : AddressingMode) (cpu : Cpu) : Except EmuErr (Nat × Cpu) := do
  let pc2 ← chk16 (cpu.reg.pc + 2)
  let cpu ← push_stack_addr cpu pc2
  let cpu := { cpu with reg := { cpu.reg with
    status := flagInsert cpu.reg.status StatusFlags.INTERRUPT_DISABLE } }
  -- `let mut flags = self.reg.status.clone(); flags.insert(BREAK);` -- the
  -- local `flags` is computed but the push below uses `status` instead
  let _flags := flagInsert cpu.reg.status StatusFlags.BREAK
  let cpu ← push_stack cpu cpu.reg.status
  let (lo, cpu) ← cpu.read 0xFFFE
  let (hi, cpu) ← cpu.read 0xFFFF
  let cpu := { cpu with reg := { cpu.reg with pc := make_address lo hi } }
  .ok (0, cpu)

def bvc (am : AddressingMode) (cpu : Cpu) : Except EmuErr (Nat × Cpu) :=
  branch_on_predicate am cpu (¬ flagContains cpu.reg.status StatusFlags.OVERFLOW)

def bvs (am : AddressingMode) (cpu : Cpu) : Except EmuErr (Nat × Cpu) :=
  branch_on_predicate am cpu (flagContains cpu.reg.status StatusFlags.OVERFLOW)

def clc (_am : AddressingMode) (cpu : Cpu) : Except EmuErr (Nat × Cpu) :=
  .ok (0, { cpu with reg := { cpu.reg with
    status := flagRemove cpu.reg.status StatusFlags.CARRY } })

def cld (_am : AddressingMode) (cpu : Cpu) : Except EmuErr (Nat × Cpu) :=
  .ok (0, { cpu with reg := { cpu.reg with
    status := flagRemove cpu.reg.status StatusFlags.DECIMAL } })

def cli (_am : AddressingMode) (cpu : Cpu) : Except EmuErr (Nat × Cpu) :=
  .ok (0, { cpu with reg := { cpu.reg with
    status := flagRemove cpu.reg.status StatusFlags.INTERRUPT_DISABLE } })

def clv (_am : AddressingMode) (cpu : Cpu) : Except EmuErr (Nat × Cpu) :=
  .ok (0, { cpu with reg := { cpu.reg with
    status := flagRemove cpu.reg.status StatusFlags.OVERFLOW } })

def cmp (am : AddressingMode) (cpu : Cpu) : Except EmuErr (Nat × Cpu) :=
  compare am cpu cpu.reg.a

def cpx (am : AddressingMode) (cpu : Cpu) : Except EmuErr (Nat × Cpu) :=
  compare am cpu cpu.reg.x

def cpy (am : AddressingMode) (cpu : Cpu) : Except EmuErr (Nat × Cpu) :=
  compare am cpu cpu.reg.y

def dec (am : AddressingMode) (cpu : Cpu) : Except EmuErr (Nat × Cpu) := do
  let (e, cpu) ← effective_addr am cpu
  let (v, cpu) ← deref_byte am cpu
  let val := wsub8 v 1
  let cpu ← cpu.write e val
  let cpu := set_negative_flag cpu val
  let cpu := set_zero_flag cpu val
  .ok (0, cpu)

def dex (_am : AddressingMode) (cpu : Cpu) : Except EmuErr (Nat × Cpu) := do
  let cpu := { cpu with reg := { cpu.reg with x := wsub8 cpu.reg.x 1 } }
  let cpu := set_negative_flag cpu cpu.reg.x
  let cpu := set_zero_flag cpu cpu.reg.x
  .ok (0, cpu)

def dey (_am : AddressingMode) (cpu : Cpu) : Except EmuErr (Nat × Cpu) := do
  let cpu := { cpu with reg := { cpu.reg with y := wsub8 cpu.reg.y 1 } }
  let cpu := set_negative_flag cpu cpu.reg.y
  let cpu := set_zero_flag cpu cpu.reg.y
  .ok (0, cpu)

def eor (am : AddressingMode) (cpu : Cpu) : Except EmuErr (Nat × Cpu) := do
  let (cross, cpu) ← cross_page_boundary am cpu
  let (m, cpu) ← deref_byte am cpu
  let cpu := { cpu with reg := { cpu.reg with a := cpu.reg.a ^^^ m } }
  let cpu := set_negative_flag cpu cpu.reg.a
  let cpu := set_zero_flag cpu cpu.reg.a
  if cross then .ok (1, cpu) else .ok (0, cpu)

def inc (am : AddressingMode) (cpu : Cpu) : Except EmuErr (Nat × Cpu) := do
  let (addr, cpu) ← effective_addr am cpu
  let (v, cpu) ← cpu.read addr
  let val := (v + 1) % 256
  let cpu ← cpu.write addr val
  let cpu := set_negative_flag cpu val
  let cpu := set_zero_flag cpu val
  .ok (0, cpu)

def inx (_am : AddressingMode) (cpu : Cpu) : Except EmuErr (Nat × Cpu) := do
  let cpu := { cpu with reg := { cpu.reg with x := (cpu.reg.x + 1) % 256 } }
  let cpu := set_negative_flag cpu cpu.reg.x
  let cpu := set_zero_flag cpu cpu.reg.x
  .ok (0, cpu)

def iny (_am : AddressingMode) (cpu : Cpu) : Except EmuErr (Nat × Cpu) := do
  let cpu := { cpu with reg := { cpu.reg with y := (cpu.reg.y + 1) % 256 } }
  let cpu := set_negative_flag cpu cpu.reg.y
  let cpu := set_zero_flag cpu cpu.reg.y
  .ok (0, cpu)

def jmp (am : AddressingMode) (cpu : Cpu) : Except EmuErr (Nat × Cpu) := do
  let (addr, cpu) ← deref_address am cpu
  .ok (0, { cpu with reg := { cpu.reg with pc := addr } })

def jsr (am : AddressingMode) (cpu : Cpu) : Except EmuErr (Nat × Cpu) := do
  let pc1 ← chkSub cpu.reg.pc 1
  let cpu ← push_stack_addr cpu pc1
  let (addr, cpu) ← deref_address am cpu
  .ok (0, { cpu with reg := { cpu.reg with pc := addr } })

def lax (am : AddressingMode) (cpu : Cpu) : Except EmuErr (Nat × Cpu) := do
  let (crossed, cpu) ← cross_page_boundary am cpu
  let (m, cpu) ← deref_byte am cpu
  let cpu := { cpu with reg := { cpu.reg with x := m, a := m } }
  let cpu := set_negative_flag cpu m
  let cpu := set_zero_flag cpu m
  if crossed then .ok (1, cpu) else .ok (0, cpu)

def lda (am : AddressingMode) (cpu : Cpu) : Except EmuErr (Nat × Cpu) := do
  let (v, cpu) ← deref_byte am cpu
  let cpu := { cpu with reg := { cpu.reg with a := v } }
  let (crossed, cpu) ← cross_page_boundary am cpu
  let cpu := set_negative_flag cpu cpu.reg.a
  let cpu := set_zero_flag cpu cpu.reg.a
  if crossed then .ok (1, cpu) else .ok (0, cpu)

def ldx (am : AddressingMode) (cpu : Cpu) : Except EmuErr (Nat × Cpu) := do
  let (v, cpu) ← deref_byte am cpu
  let cpu := { cpu with reg := { cpu.reg with x := v } }
  let (crossed, cpu) ← cross_page_boundary am cpu
  let cpu := set_negative_flag cpu cpu.reg.x
  let cpu := set_zero_flag cpu cpu.reg.x
  if crossed then .ok (1, cpu) else .ok (0, cpu)

def ldy (am : AddressingMode) (cpu : Cpu) : Except EmuErr (Nat × Cpu) := do
  let (v, cpu) ← deref_byte am cpu
  let cpu := { cpu with reg := { cpu.reg with y := v } }
  let (crossed, cpu) ← cross_page_boundary am cpu
  let cpu := set_negative_flag cpu cpu.reg.y
  let cpu := set_zero_flag cpu cpu.reg.y
  if crossed then .ok (1, cpu) else .ok (0, cpu)

def lsr (am : AddressingMode) (cpu : Cpu) : Except EmuErr (Nat × Cpu) := do
  if am = .Accumulator then
    let carry := cpu.reg.a &&& 0b1 = 1
    let cpu := { cpu with reg := { cpu.reg with a := cpu.reg.a >>> 1 } }
    let cpu := { cpu with reg := { cpu.reg with
      status := flagSet cpu.reg.status StatusFlags.CARRY carry } }
    let cpu := set_zero_flag cpu cpu.reg.a
    let cpu := { cpu with reg := { cpu.reg with
      status := flagRemove cpu.reg.status StatusFlags.NEGATIVE } }
    .ok (0, cpu)
  else do
    let (addr, cpu) ← effective_addr am cpu
    let (val, cpu) ← deref_byte am cpu
    let carry := val &&& 0b1 = 1
    let cpu ← cpu.write addr (val >>> 1)
    let cpu := { cpu with reg := { cpu.reg with
      status := flagSet cpu.reg.status StatusFlags.CARRY carry } }
    let cpu := set_zero_flag cpu (val >>> 1)
    let cpu := { cpu with reg := { cpu.reg with
      status := flagRemove cpu.reg.status StatusFlags.NEGATIVE } }
    .ok (0, cpu)

def nop (am : AddressingMode) (cpu : Cpu) : Except EmuErr (Nat × Cpu) := do
  let (cross, cpu) ← cross_page_boundary am cpu
  if cross then .ok (1, cpu) else .ok (0, cpu)

def ora (am : AddressingMode) (cpu : Cpu) : Except EmuErr (Nat × Cpu) := do
  let (cross, cpu) ← cross_page_boundary am cpu
  let (m, cpu) ← deref_byte am cpu
  let cpu := { cpu with reg := { cpu.reg with a := cpu.reg.a ||| m } }
  let cpu := set_negative_flag cpu cpu.reg.a
  let cpu := set_zero_flag cpu cpu.reg.a
  if cross then .ok (1, cpu) else .ok (0, cpu)

def pha (_am : AddressingMode) (cpu : Cpu) : Except EmuErr (Nat × Cpu) := do
  let cpu ← push_stack cpu cpu.reg.a
  .ok (0, cpu)

def php (_am : AddressingMode) (cpu : Cpu) : Except EmuErr (Nat × Cpu) := do
  let flags := flagInsert (flagInsert cpu.reg.status StatusFlags.BREAK)
    StatusFlags.UNUSED
  let cpu ← push_stack cpu flags
  .ok (0, cpu)

def pla (_am : AddressingMode) (cpu : Cpu) : Except EmuErr (Nat × Cpu) := do
  let (v, cpu) ← pop_stack cpu
  let cpu := { cpu with reg := { cpu.reg with a := v } }
  let cpu := set_zero_flag cpu cpu.reg.a
  let cpu := set_negative_flag cpu cpu.reg.a
  .ok (0, cpu)

def plp (_am : AddressingMode) (cpu : Cpu) : Except EmuErr (Nat × Cpu) := do
  let (v, cpu) ← pop_stack cpu
  -- `StatusFlags::from_bits(..).expect(..)` panics on bits outside `all()`
  match StatusFlags.from_bits v with
  | none => .error (.rtPanic "Flags popped from stack invalid.")
  | some st =>
    let st := flagInsert (flagRemove st StatusFlags.BREAK) StatusFlags.UNUSED
    .ok (0, { cpu with reg := { cpu.reg with status := st } })

def rol (am : AddressingMode) (cpu : Cpu) : Except EmuErr (Nat × Cpu) := do
  let carry := if flagContains cpu.reg.status StatusFlags.CARRY then 1 else 0
  if am = .Accumulator then
    let a := cpu.reg.a
    let new_carry := is_negative a
    let masked := ((a <<< 1) ||| carry) &&& 0xFF
    let cpu := { cpu with reg := { cpu.reg with
      status := flagSet cpu.reg.status StatusFlags.CARRY new_carry } }
    let cpu := set_negative_flag cpu masked
    let cpu := set_zero_flag cpu masked
    .ok (0, { cpu with reg := { cpu.reg with a := masked } })
  else do
    let (addr, cpu) ← effective_addr am cpu
    let (m, cpu) ← deref_byte am cpu
    let new_carry := is_negative m
    let masked := ((m <<< 1) ||| carry) &&& 0xFF
    let cpu := { cpu with reg := { cpu.reg with
      status := flagSet cpu.reg.status StatusFlags.CARRY new_carry } }
    let cpu := set_negative_flag cpu masked
    let cpu := set_zero_flag cpu masked
    let cpu ← cpu.write addr masked
    .ok (0, cpu)

def ror (am : AddressingMode) (cpu : Cpu) : Except EmuErr (Nat × Cpu) := do
  let carry := if flagContains cpu.reg.status StatusFlags.CARRY then 0x80 else 0
  if am = .Accumulator then
    let a := cpu.reg.a
    let new_carry := a &&& 1 = 1
    let masked := ((a >>> 1) ||| carry) &&& 0xFF
    let cpu := { cpu with reg := { cpu.reg with
      status := flagSet cpu.reg.status StatusFlags.CARRY new_carry } }
    let cpu := set_negative_flag cpu masked
    let cpu := set_zero_flag cpu masked
    .ok (0, { cpu with reg := { cpu.reg with a := masked } })
  else do
    let (addr, cpu) ← effective_addr am cpu
    let (m, cpu) ← deref_byte am cpu
    let new_carry := m &&& 1 = 1
    let masked := ((m >>> 1) ||| carry) &&& 0xFF
    let cpu := { cpu with reg := { cpu.reg with
      status := flagSet cpu.reg.status StatusFlags.CARRY new_carry } }
    let cpu := set_negative_flag cpu masked
    let cpu := set_zero_flag cpu masked
    let cpu ← cpu.write addr masked
    .ok (0, cpu)

def rti (_am : AddressingMode) (cpu : Cpu) : Except EmuErr (Nat × Cpu) := do
  let (v, cpu) ← pop_stack cpu
  match StatusFlags.from_bits v with
  | none => .error (.rtPanic "Status flags popped from stack are invalid.")
  | some st =>
    let st := flagInsert (flagRemove st StatusFlags.BREAK) StatusFlags.UNUSED
    let cpu := { cpu with reg := { cpu.reg with status := st } }
    let (addr, cpu) ← pop_stack_addr cpu
    .ok (0, { cpu with reg := { cpu.reg with pc := addr } })

def rts (_am : AddressingMode) (cpu : Cpu) : Except EmuErr (Nat × Cpu) := do
  let (addr, cpu) ← pop_stack_addr cpu
  let pc ← chk16 (addr + 1)
  .ok (0, { cpu with reg := { cpu.reg with pc := pc } })

def sbc (am : AddressingMode) (cpu : Cpu) : Except EmuErr (Nat × Cpu) := do
  -- literally the same as adc() but with m inverted
  let (m0, cpu) ← deref_byte am cpu
  let m := bnot8 m0
  let (crossed, cpu) ← cross_page_boundary am cpu
  let c := if flagContains cpu.reg.status StatusFlags.CARRY then 1 else 0
  let a := cpu.reg.a
  let sum := a + m + c
  let masked := sum &&& 0xFF
  let cpu := { cpu with reg := { cpu.reg with a := masked } }
  let cpu := set_negative_flag cpu masked
  let cpu := set_zero_flag cpu masked
  let carry := sum &&& 0xFF00 ≠ 0
  let st := flagSet cpu.reg.status StatusFlags.CARRY carry
  let st := flagSet st StatusFlags.OVERFLOW
    ((is_negative m = is_negative a) ∧ (is_negative masked ≠ is_negative a))
  let cpu := { cpu with reg := { cpu.reg with status := st } }
  if crossed then .ok (1, cpu) else .ok (0, cpu)

def sec (_am : AddressingMode) (cpu : Cpu) : Except EmuErr (Nat × Cpu) :=
  .ok (0, { cpu with reg := { cpu.reg with
    status := flagInsert cpu.reg.status StatusFlags.CARRY } })

def sed (_am : AddressingMode) (cpu : Cpu) : Except EmuErr (Nat × Cpu) :=
  .ok (0, { cpu with reg := { cpu.reg with
    status := flagInsert cpu.reg.status StatusFlags.DECIMAL } })

def sei (_am : AddressingMode) (cpu : Cpu) : Except EmuErr (Nat × Cpu) :=
  .ok (0, { cpu with reg := { cpu.reg with
    status := flagInsert cpu.reg.status StatusFlags.INTERRUPT_DISABLE } })

def sta (am : AddressingMode) (cpu : Cpu) : Except EmuErr (Nat × Cpu) := do
  let (addr, cpu) ← effective_addr am cpu
  let cpu ← cpu.write addr cpu.reg.a
  .ok (0, cpu)

def stx (am : AddressingMode) (cpu : Cpu) : Except EmuErr (Nat × Cpu) := do
  let (addr, cpu) ← effective_addr am cpu
  let cpu ← cpu.write addr cpu.reg.x
  .ok (0, cpu)

def sty (am : AddressingMode) (cpu : Cpu) : Except EmuErr (Nat × Cpu) := do
  let (addr, cpu) ← effective_addr am cpu
  let cpu ← cpu.write addr cpu.reg.y
  .ok (0, cpu)

def tax (_am : AddressingMode) (cpu : Cpu) : Except EmuErr (Nat × Cpu) := do
  let cpu := { cpu with reg := { cpu.reg with x := cpu.reg.a } }
  let cpu := set_negative_flag cpu cpu.reg.x
  let cpu := set_zero_flag cpu cpu.reg.x
  .ok (0, cpu)

def tay (_am : AddressingMode) (cpu : Cpu) : Except EmuErr (Nat × Cpu) := do
  let cpu := { cpu with reg := { cpu.reg with y := cpu.reg.a } }
  let cpu := set_negative_flag cpu cpu.reg.y
  let cpu := set_zero_flag cpu cpu.reg.y
  .ok (0, cpu)

def tsx (_am : AddressingMode) (cpu : Cpu) : Except EmuErr (Nat × Cpu) := do
  let cpu := { cpu with reg := { cpu.reg with x := cpu.reg.sp } }
  let cpu := set_negative_flag cpu cpu.reg.x
  let cpu := set_zero_flag cpu cpu.reg.x
  .ok (0, cpu)

def txa (_am : AddressingMode) (cpu : Cpu) : Except EmuErr (Nat × Cpu) := do
  let cpu := { cpu with reg := { cpu.reg with a := cpu.reg.x } }
  let cpu := set_negative_flag cpu cpu.reg.a
  let cpu := set_zero_flag cpu cpu.reg.a
  .ok (0, cpu)

def txs (_am : AddressingMode) (cpu : Cpu) : Except EmuErr (Nat × Cpu) :=
  .ok (0, { cpu with reg := { cpu.reg with sp := cpu.reg.x } })

def tya (_am : AddressingMode) (cpu : Cpu) : Except EmuErr (Nat × Cpu) := do
  let cpu := { cpu with reg := { cpu.reg with a := cpu.reg.y } }
  let cpu := set_negative_flag cpu cpu.reg.a
  let cpu := set_zero_flag cpu cpu.reg.a
  .ok (0, cpu)

def invalid_op (_am : AddressingMode) (_cpu : Cpu) : Except EmuErr (Nat × Cpu) :=
  .error .invalidInstruction

/-- `exec::lookup_opcode_fn` + `exec::exec_instr`: dispatch by opcode and run,
returning the extra cycles. -/
def exec_instr (i : Instr) (cpu : Cpu) : Except EmuErr (Nat × Cpu) :=
  match i.op with
  | .ADC => adc i.mode cpu
  | .AND => and_op i.mode cpu
  | .ASL => asl i.mode cpu
  | .BCC => bcc i.mode cpu
  | .BCS => bcs i.mode cpu
  | .BEQ => beq i.mode cpu
  | .BIT => bit_op i.mode cpu
  | .BMI => bmi i.mode cpu
  | .BNE => bne i.mode cpu
  | .BPL => bpl i.mode cpu
  | .BRK => brk i.mode cpu
  | .BVC => bvc i.mode cpu
  | .BVS => bvs i.mode cpu
  | .CLC => clc i.mode cpu
  | .CLD => cld i.mode cpu
  | .CLI => cli i.mode cpu
  | .CLV => clv i.mode cpu
  | .CMP => cmp i.mode cpu
  | .CPX => cpx i.mode cpu
  | .CPY => cpy i.mode cpu
  | .DEC => dec i.mode cpu
  | .DEX => dex i.mode cpu
  | .DEY => dey i.mode cpu
  | .EOR => eor i.mode cpu
  | .INC => inc i.mode cpu
  | .INX => inx i.mode cpu
  | .INY => iny i.mode cpu
  | .JMP => jmp i.mode cpu
  | .JSR => jsr i.mode cpu
  | .LAX => lax i.mode cpu
  | .LDA => lda i.mode cpu
  | .LDX => ldx i.mode cpu
  | .LDY => ldy i.mode cpu
  | .LSR => lsr i.mode cpu
  | .NOP => nop i.mode cpu
  | .ORA => ora i.mode cpu
  | .PHA => pha i.mode cpu
  | .PHP => php i.mode cpu
  | .PLA => pla i.mode cpu
  | .PLP => plp i.mode cpu
  | .ROL => rol i.mode cpu
  | .ROR => ror i.mode cpu
  | .RTI => rti i.mode cpu
  | .RTS => rts i.mode cpu
  | .SBC => sbc i.mode cpu
  | .SEC => sec i.mode cpu
  | .SED => sed i.mode cpu
  | .SEI => sei i.mode cpu
  | .STA => sta i.mode cpu
  | .STX => stx i.mode cpu
  | .STY => sty i.mode cpu
  | .TAX => tax i.mode cpu
  | .TAY => tay i.mode cpu
  | .TSX => tsx i.mode cpu
  | .TXA => txa i.mode cpu
  | .TXS => txs i.mode cpu
  | .TYA => tya i.mode cpu
  | .INVALID => invalid_op i.mode cpu

/-- `Cpu::run_next_instr`: take a pending interrupt at the instruction
boundary (IRQ only when `I` is clear), otherwise fetch and execute the next
instruction; returns the cycles the step costs. -/
def run_next_instr (cpu : Cpu) : Except EmuErr (Nat × Cpu) := do
  -- Check for interrupts
  let taken ←
    match cpu.interrupt with
    | some interrupt =>
      let interrupts_enabled :=
        ¬ flagContains cpu.reg.status StatusFlags.INTERRUPT_DISABLE
      if interrupt ≠ Interrupt.Request ∨ interrupts_enabled then do
        let vector := interrupt.vector
        let (lo, bus) ← cpu.bus.read vector
        let (hi, bus) ← bus.read (vector + 1)
        let cpu := { cpu with bus := bus }
        let isr_addr := make_address lo hi
        let cpu ← push_stack_addr cpu cpu.reg.pc
        let st := flagRemove cpu.reg.status StatusFlags.BREAK
        let st := flagInsert st StatusFlags.UNUSED
        let st := flagInsert st StatusFlags.INTERRUPT_DISABLE
        let cpu := { cpu with reg := { cpu.reg with status := st } }
        let cpu ← push_stack cpu cpu.reg.status
        -- Jump to Interrupt Handler, clear interrupt
        let cpu := { cpu with reg := { cpu.reg with pc := isr_addr },
                              interrupt := none }
        .ok (some (interrupt.num_cycles, cpu))
      else .ok none
    | none => .ok none
  match taken with
  | some (n, cpu) => .ok (n, cpu)
  | none => do
    -- Decode and run the next instruction
    let ((i, ncycles), cpu) ← fetch_instr cpu
    let (extra_cycles, cpu) ← exec_instr i cpu
    .ok (ncycles + extra_cycles, cpu)

/-- `Cpu::cycle`: when the countdown hits zero, commit the next instruction
(or interrupt) and load its cycle budget; always burn one cycle. -/
def Cpu.cycle (cpu : Cpu) : Except EmuErr Cpu := do
  let cpu ←
    if cpu.cycles_left = 0 then do
      let (n, cpu) ← run_next_instr cpu
      .ok { cpu with cycles_left := n }
    else .ok cpu
  let cl ← chkSub cpu.cycles_left 1
  .ok { cpu with cycles_left := cl, num_cpu_cycles := cpu.num_cpu_cycles + 1 }

/-- `Cpu::system_tick`: one master-clock tick: every third tick runs a CPU
cycle, then the PPU advances one dot and its returned interrupt is stored
into the CPU's interrupt slot (unconditionally). -/
def system_tick (cpu : Cpu) : Except EmuErr (Option Frame × Cpu) := do
  let cpu := { cpu with num_system_ticks := cpu.num_system_ticks + 1 }
  let cpu ←
    if cpu.ticks_left = 0 then do
      let cpu ← cpu.cycle
      .ok { cpu with ticks_left := NUM_TICKS_PER_CPU_CYCLE }
    else .ok cpu
  -- `ticks_left ≥ 1` here (it was just reloaded to 3 when it was 0)
  let cpu := { cpu with ticks_left := cpu.ticks_left - 1 }
  let ((frame, int), ppu) ← cpu.bus.ppu.tick cpu.bus.cart
  let cpu := { cpu with bus := { cpu.bus with ppu := ppu } }
  let cpu := { cpu with interrupt := int }
  .ok (frame, cpu)

/-! ### Concrete states used as inputs of the claim theorems -/

/-- A trivial color map (every 6-bit index maps to black). -/
def cmZero : Nat → Option Color := fun _ => some Color.BLACK

/-- A freshly reset MMC1 (the record built by `build_mmc1_cart` after its
initial `update_base_addr`, with empty ROMs). -/
def c6mmc1 : Mmc1 :=
  { prg_ram := fun _ => 0, prg_rom := [], chr_rom := [], chr_ram := fun _ => 0,
    shift_reg := 0, control := 0x0C, chr_bank0 := 0, chr_bank1 := 0,
    prg_bank := 0, write_count := 0, prg_rom_bank_0_base := 0,
    prg_rom_bank_1_base := 0, chr_rom_bank_0_base := 0,
    chr_rom_bank_1_base := 0, mirror_type := .OneScreenLow }

/-- The five-write MMC1 serial sequence of spec §8 scenario 5: values
`{0x01, 0x01, 0x00, 0x01, 0x00}` at addresses in `$8000-$9FFF`. -/
def c6chain : Except EmuErr Mmc1 := do
  let m ← c6mmc1.write 0x8000 0x01
  let m ← m.write 0x9ABC 0x01
  let m ← m.write 0x8123 0x00
  let m ← m.write 0x9FFF 0x01
  m.write 0x8000 0x00

/-- PPU with `v = $3F00`, palette byte 0xAB at `$3F00`, read buffer 0xCD. -/
def c7ppu : Ppu :=
  { Ppu.build cmZero with
    palettes := fupd (fun _ => 0) 0 0xAB,
    reg := { PpuReg.default with v_addr := 0x3F00, ppu_data_buffer := 0xCD } }

/-- PPU with `v = $3F01` (used as the witness input for the amended claim). -/
def c7ppu' : Ppu :=
  { Ppu.build cmZero with
    palettes := fupd (fun _ => 0) 1 0x77,
    reg := { PpuReg.default with v_addr := 0x3F01, ppu_data_buffer := 0xCD } }

/-- A controller whose live input state has only the A button pressed. -/
def c8controller : Controller := { inputs := 1, read_state := 0, strobe := false }

/-- NROM-128 whose reset/IRQ area holds `$34 $12` at `$FFFE/$FFFF`. -/
def c3nrom : Nrom :=
  { prg_rom := List.replicate 16382 0 ++ [0x34, 0x12],
    prg_ram := fun _ => 0, chr_rom := List.replicate 8192 0,
    chr_ram := fun _ => 0, mirroring := .Vertical, num_prg_banks := 1 }

/-- CPU about to execute the body of BRK: PC already past the opcode byte
(`PC = $8000`), `SP = $FD`, status `$20` (only `U` set, `B` clear). -/
def c3cpu : Cpu :=
  let base := Cpu.mock none cmZero
  { base with
    bus := { base.bus with cart := .nrom c3nrom },
    reg := { Registers.default with pc := 0x8000, sp := 0xFD, status := 0x20 } }

/-- System state at dot 1 of scanline 241 with `PPUCTRL.NMI_enable = 1` and
the CPU mid-instruction (10 cycles left; next CPU cycle on the next tick). -/
def c1cpu : Cpu :=
  let base := Cpu.mock none cmZero
  { base with
    cycles_left := 10,
    ticks_left := 1,
    bus := { base.bus with ppu :=
      { base.bus.ppu with
        scanline := 241,
        cycle := 1,
        reg := { PpuReg.default with control := 0x80 } } } }

/-- RAM image for the DMA scenario: `STA $4014` at `$0000`, marker bytes
`$AA`/`$FF`/`$BB` at `$0200`/`$0202`/`$02FF` (and `$0205 = 0`). -/
def c2ram : List Nat :=
  [0x8D, 0x14, 0x40] ++ List.replicate (0x200 - 3) 0 ++ [0xAA, 0, 0xFF] ++
  List.replicate 0xFC 0 ++ [0xBB]

/-- CPU at an instruction boundary on `STA $4014` with `A = 2`, even elapsed
cycle count and `OAMADDR = 5`. -/
def c2cpu : Cpu :=
  let base := Cpu.mock (some c2ram) cmZero
  { base with
    reg := { Registers.default with a := 2 },
    bus := { base.bus with ppu :=
      { base.bus.ppu with reg := { PpuReg.default with oam_addr := 5 } } } }

/-- Mock CPU with `SP = 0` (its default) — the push underflow input. -/
def c9cpu : Cpu := Cpu.mock none cmZero

/-- Mock CPU with `SP = 0xFF` — the pull overflow input. -/
def c9cpu' : Cpu :=
  { Cpu.mock none cmZero with reg := { Registers.default with sp := 0xFF } }

/-- Mock CPU with status `$04`: the `I` flag set (equivalently, by the bit
collision, the `D` flag set). -/
def c4cpu : Cpu :=
  { Cpu.mock none cmZero with reg := { Registers.default with status := 0x04 } }

/-- Mock CPU with status `$00`: every flag clear. -/
def c4cpu' : Cpu :=
  { Cpu.mock none cmZero with reg := { Registers.default with status := 0 } }

/-- Mock CPU with `A = 200` and the carry flag set (witness input for ADC). -/
def c5cpu : Cpu :=
  { Cpu.mock none cmZero with reg := { Registers.default with a := 200, status := 0x21 } }

end NesEmu

/-!
## Verification

General lemmas about the embedded definitions, followed by one theorem per
spec claim (with witnesses and counterexamples where applicable).
-/

namespace NesEmu

theorem flagContains_two_pow (b k : Nat) : flagContains b (2 ^ k) = b.testBit k := by
  unfold flagContains
  rw [Nat.and_two_pow]
  cases h : b.testBit k
  · simp [h]
    exact (Nat.two_pow_pos k).ne
  · simp [h]

theorem h255_eq : (0xFF : Nat) = 2 ^ 8 - 1 := by norm_num

theorem testBit_flagSet_self (b f k : Nat) (v : Bool) (hf : f = 2 ^ k)
    (hk : k < 8) : (flagSet b f v).testBit k = v := by
  subst hf
  unfold flagSet flagInsert flagRemove
  rw [h255_eq]
  cases v
  · simp only [Bool.false_eq_true, if_false, Nat.testBit_land, Nat.testBit_xor,
      Nat.testBit_two_pow_sub_one, Nat.testBit_two_pow_self]
    simp [hk]
  · simp [Nat.testBit_lor, Nat.testBit_two_pow_self]

theorem testBit_flagSet_ne (b f j k : Nat) (v : Bool) (hf : f = 2 ^ k)
    (hj : j < 8) (hne : j ≠ k) : (flagSet b f v).testBit j = b.testBit j := by
  subst hf
  unfold flagSet flagInsert flagRemove
  rw [h255_eq]
  cases v
  · simp only [Bool.false_eq_true, if_false, Nat.testBit_land, Nat.testBit_xor,
      Nat.testBit_two_pow_sub_one, Nat.testBit_two_pow_of_ne (Ne.symm hne)]
    simp [hj]
  · simp [Nat.testBit_lor, Nat.testBit_two_pow_of_ne (Ne.symm hne)]

theorem and_mod_256 (n : Nat) : n &&& 0xFF = n % 256 := by
  simpa using Nat.and_pow_two_sub_one_eq_mod n 8

theorem and7_mod8 (n : Nat) : n &&& 0x7 = n % 8 := by
  simpa using Nat.and_pow_two_sub_one_eq_mod n 3

set_option maxRecDepth 4096 in
theorem and_ff00_iff : ∀ s, s < 512 → ((s &&& 0xFF00 ≠ 0) ↔ 255 < s) := by decide

theorem and80_ne (x : Nat) : (x &&& 0x80 ≠ 0) ↔ x.testBit 7 = true := by
  have h := Nat.and_two_pow x 7
  norm_num at h
  rw [h]
  cases hb : x.testBit 7 <;> simp [hb]

theorem is_negative_eq (x : Nat) : is_negative x = x.testBit 7 := by
  unfold is_negative
  cases hb : x.testBit 7
  · simp [and80_ne, hb]
  · simp [and80_ne, hb]

theorem contains_CARRY (b : Nat) : flagContains b StatusFlags.CARRY = b.testBit 0 := by
  have h : StatusFlags.CARRY = 2 ^ 0 := by norm_num [StatusFlags.CARRY]
  rw [h, flagContains_two_pow]

theorem contains_OVERFLOW (b : Nat) : flagContains b StatusFlags.OVERFLOW = b.testBit 6 := by
  have h : StatusFlags.OVERFLOW = 2 ^ 6 := by norm_num [StatusFlags.OVERFLOW]
  rw [h, flagContains_two_pow]

theorem ok_bind {α β : Type} (a : α) (f : α → Except EmuErr β) :
    (Except.ok a : Except EmuErr α) >>= f = f a := rfl

end NesEmu

namespace NesEmu

theorem mmc1_write_serial (m : Mmc1) (a byte : Nat)
    (ha : 0x8000 ≤ a) (ha' : a ≤ 0xFFFF)
    (hb : byte &&& 0x80 = 0) (hwc : m.write_count < 4) :
    m.write a byte = .ok { m with
      shift_reg := ((byte &&& 1) <<< 4) ||| (m.shift_reg >>> 1),
      write_count := m.write_count + 1 } := by
  unfold Mmc1.write
  rw [if_neg (by omega), if_pos (by omega), if_neg (by simp [hb])]
  unfold chk8
  have h1 : m.write_count + 1 < 256 := by omega
  have h2 : ¬ (m.write_count + 1 = 5) := by omega
  simp only [if_pos h1, ok_bind, if_neg h2]

end NesEmu

namespace NesEmu

theorem mmc1_write_latch_ctrl11 (m : Mmc1) (a : Nat)
    (ha : 0x8000 ≤ a) (ha' : a ≤ 0x9FFF)
    (hwc : m.write_count = 4) (hs : m.shift_reg = 22) :
    m.write a 0x00 = .ok { m with
      shift_reg := 0, write_count := 0, control := 11,
      mirror_type := .Horizontal,
      chr_rom_bank_0_base := (m.chr_bank0 >>> 1) * (8 * 1024),
      chr_rom_bank_1_base := (m.chr_bank0 >>> 1) * (8 * 1024) + 4 * 1024,
      prg_rom_bank_0_base := 0,
      prg_rom_bank_1_base := (m.prg_bank &&& 0xF) * (16 * 1024) } := by
  have h13 : a >>> 13 &&& 3 = 0 := by
    rw [Nat.shiftRight_eq_div_pow]
    have h4 : a / 2 ^ 13 = 4 := by omega
    rw [h4]
    decide
  unfold Mmc1.write
  rw [if_neg (by omega), if_pos (by omega), if_neg (by decide)]
  unfold chk8
  simp only [hwc, hs, h13]
  norm_num
  unfold Mmc1.update_base_addr mmc1_get_mirror mmc1_get_chr_rom_bank_mode
    mmc1_get_prg_rom_bank_mode
  norm_num
  rfl

end NesEmu

namespace NesEmu

theorem cpu_write_ram (cpu : Cpu) (addr byte : Nat) (h1 : addr ≤ 0x1FFF)
    (h2 : addr ≠ 0x4014) :
    cpu.write addr byte = .ok { cpu with
      bus := { cpu.bus with ram := fupd cpu.bus.ram (addr &&& (RAM_SIZE - 1)) byte } } := by
  unfold Cpu.write
  rw [if_neg h2]
  unfold MemoryBus.write
  rw [if_pos h1]
  unfold Ram.write
  rw [if_neg (by omega)]
  rfl

theorem push_stack_spec (cpu : Cpu) (byte : Nat) (h1 : 1 ≤ cpu.reg.sp)
    (h2 : cpu.reg.sp ≤ 0xFF) :
    push_stack cpu byte = .ok { cpu with
      bus := { cpu.bus with ram := fupd cpu.bus.ram ((cpu.reg.sp + STACK_OFFSET) &&& (RAM_SIZE - 1)) byte },
      reg := { cpu.reg with sp := cpu.reg.sp - 1 } } := by
  unfold push_stack
  dsimp only
  rw [cpu_write_ram cpu (cpu.reg.sp + STACK_OFFSET) byte
    (by unfold STACK_OFFSET; omega) (by unfold STACK_OFFSET; omega)]
  simp only [ok_bind]
  unfold chkSub
  rw [if_pos (show (1 : Nat) ≤ cpu.reg.sp from h1)]
  rfl

end NesEmu

namespace NesEmu

theorem cpu_read_cart (cpu : Cpu) (c : Cartridge) (addr v : Nat)
    (hc : cpu.bus.cart = c)
    (h1 : 0x4020 ≤ addr) (h2 : addr ≤ 0xFFFF)
    (hv : c.read addr = .ok v) :
    cpu.read addr = .ok (v, cpu) := by
  unfold Cpu.read MemoryBus.read
  rw [if_neg (by omega), if_neg (by omega), if_neg (by omega), if_neg (by omega),
    if_neg (by omega), if_pos (by omega)]
  rw [hc, hv]
  rfl

theorem brk_spec (cpu : Cpu) (lo hi : Nat)
    (hsp1 : 3 ≤ cpu.reg.sp) (hsp2 : cpu.reg.sp ≤ 0xFF)
    (hpc : cpu.reg.pc + 2 ≤ 0xFFFF)
    (hlo : cpu.bus.cart.read 0xFFFE = .ok lo)
    (hhi : cpu.bus.cart.read 0xFFFF = .ok hi) :
    ∃ cpu', brk .Implied cpu = .ok (0, cpu') ∧
      cpu'.reg.pc = make_address lo hi ∧
      cpu'.reg.sp = cpu.reg.sp - 3 ∧
      cpu'.reg.status = flagInsert cpu.reg.status StatusFlags.INTERRUPT_DISABLE ∧
      cpu'.bus.ram ((cpu.reg.sp + STACK_OFFSET) &&& (RAM_SIZE - 1)) =
        hi_byte (cpu.reg.pc + 2) ∧
      cpu'.bus.ram ((cpu.reg.sp - 1 + STACK_OFFSET) &&& (RAM_SIZE - 1)) =
        lo_byte (cpu.reg.pc + 2) ∧
      cpu'.bus.ram ((cpu.reg.sp - 2 + STACK_OFFSET) &&& (RAM_SIZE - 1)) =
        flagInsert cpu.reg.status StatusFlags.INTERRUPT_DISABLE := by
  unfold brk
  unfold chk16
  rw [if_pos (show cpu.reg.pc + 2 < 65536 by omega)]
  simp only [ok_bind]
  unfold push_stack_addr
  rw [push_stack_spec cpu (hi_byte (cpu.reg.pc + 2)) (by omega) (by omega)]
  simp only [ok_bind]
  rw [push_stack_spec _ (lo_byte (cpu.reg.pc + 2))
    (show (1 : Nat) ≤ cpu.reg.sp - 1 by omega) (show cpu.reg.sp - 1 ≤ 0xFF by omega)]
  simp only [ok_bind]
  rw [push_stack_spec _ _
    (show (1 : Nat) ≤ cpu.reg.sp - 1 - 1 by omega)
    (show cpu.reg.sp - 1 - 1 ≤ 0xFF by omega)]
  simp only [ok_bind]
  rw [cpu_read_cart _ _ 0xFFFE lo (by exact rfl) (by omega) (by omega) hlo]
  simp only [ok_bind]
  rw [cpu_read_cart _ _ 0xFFFF hi (by exact rfl) (by omega) (by omega) hhi]
  simp only [ok_bind]
  have hmask : ∀ n, n < 2048 → n &&& (RAM_SIZE - 1) = n := by
    intro n h
    show n &&& 2047 = n
    have := Nat.and_pow_two_sub_one_eq_mod n 11
    norm_num at this
    omega
  have hk0 : (cpu.reg.sp + 256) &&& (RAM_SIZE - 1) = cpu.reg.sp + 256 :=
    hmask _ (by omega)
  have hk1 : (cpu.reg.sp - 1 + 256) &&& (RAM_SIZE - 1) = cpu.reg.sp - 1 + 256 :=
    hmask _ (by omega)
  have hk2 : (cpu.reg.sp - 1 - 1 + 256) &&& (RAM_SIZE - 1) = cpu.reg.sp - 1 - 1 + 256 :=
    hmask _ (by omega)
  have hk3 : (cpu.reg.sp - 2 + 256) &&& (RAM_SIZE - 1) = cpu.reg.sp - 2 + 256 :=
    hmask _ (by omega)
  refine ⟨_, rfl, rfl, ?_, rfl, ?_, ?_, ?_⟩
  · show cpu.reg.sp - 1 - 1 - 1 = cpu.reg.sp - 3
    omega
  all_goals simp only [STACK_OFFSET, fupd, hk0, hk1, hk2, hk3]
  · rw [if_neg (by omega), if_neg (by omega), if_pos trivial]
  · rw [if_neg (by omega), if_pos trivial]
  · rw [if_pos (by omega)]

theorem c3_rom_lo : c3cpu.bus.cart.read 0xFFFE = .ok 0x34 := by
  show c3nrom.read 0xFFFE = .ok 0x34
  unfold Nrom.read
  rw [if_neg (by decide), if_pos (by decide)]
  have h1 : c3nrom.num_prg_banks = 1 := rfl
  rw [h1, if_pos rfl]
  dsimp only
  have hmask : (0xFFFE : Nat) &&& 0x3FFF = 16382 := by decide
  rw [hmask]
  unfold vecGet
  have hlen : (List.replicate 16382 (0 : Nat)).length = 16382 :=
    List.length_replicate _ _
  have h2 : c3nrom.prg_rom.get? 16382 = some 0x34 := by
    show (List.replicate 16382 0 ++ [0x34, 0x12]).get? 16382 = some 0x34
    rw [List.get?_append_right (by rw [hlen]), hlen]
    rfl
  rw [h2]

theorem c3_rom_hi : c3cpu.bus.cart.read 0xFFFF = .ok 0x12 := by
  show c3nrom.read 0xFFFF = .ok 0x12
  unfold Nrom.read
  rw [if_neg (by decide), if_pos (by decide)]
  have h1 : c3nrom.num_prg_banks = 1 := rfl
  rw [h1, if_pos rfl]
  dsimp only
  have hmask : (0xFFFF : Nat) &&& 0x3FFF = 16383 := by decide
  rw [hmask]
  unfold vecGet
  have hlen : (List.replicate 16382 (0 : Nat)).length = 16382 :=
    List.length_replicate _ _
  have h2 : c3nrom.prg_rom.get? 16383 = some 0x12 := by
    show (List.replicate 16382 0 ++ [0x34, 0x12]).get? 16383 = some 0x12
    rw [List.get?_append_right (by rw [hlen]; omega), hlen]
    rfl
  rw [h2]

end NesEmu

namespace NesEmu

set_option maxRecDepth 100000 in
/-- C1: refutation trace for the claim that a PPU-raised NMI (dot 1 of
scanline 241 with PPUCTRL.NMI enabled) stays pending in the CPU's interrupt
slot until the next instruction boundary.  Starting from `c1cpu` (mid
instruction: 10 CPU cycles left, 1 PPU tick to the NMI dot), the first
`system_tick` latches `some NonMaskable`, but the very next `system_tick`
overwrites the slot with `none` (the PPU returns no interrupt on later dots
and `system_tick` stores its return unconditionally), so the NMI is dropped
before any instruction boundary: after the second tick the CPU is still
mid-instruction (9 cycles left) with PC and SP untouched. -/
theorem C1_nmi_latched_then_dropped :
    ((do
      let r1 ← system_tick c1cpu
      let r2 ← system_tick r1.2
      .ok ((r1.2.interrupt, r1.2.cycles_left, r1.2.ticks_left),
           (r2.2.interrupt, r2.2.cycles_left, r2.2.reg.pc, r2.2.reg.sp))) :
      Except EmuErr ((Option Interrupt × Nat × Nat) ×
        (Option Interrupt × Nat × Nat × Nat))) =
    .ok ((some .NonMaskable, 10, 0), (none, 9, 0, 0)) := rfl

set_option maxRecDepth 100000 in
/-- C2: actual OAM-DMA behaviour of a `STA $4014` with `A = 2`, `OAMADDR = 5`
and an even elapsed cycle count (state `c2cpu`, RAM image `c2ram`).  The DMA
copies page `$0200` into OAM starting at offset 0 — not at `OAMADDR` (OAM
byte 5 is 0 and `oam_addr` is still 5 afterwards), masks sprite byte 2 with
`$E3` (`$FF` at `$0202` lands as `$E3`), and the 512/513-cycle stall written
to `cycles_left` is immediately clobbered by the store instruction's own
4-cycle cost minus the cycle spent, leaving `cycles_left = 3` — not 513. -/
theorem C2_oam_dma_actual :
    ((do
      let r ← system_tick c2cpu
      .ok (r.2.cycles_left, r.2.reg.pc, r.2.bus.ppu.oam 0, r.2.bus.ppu.oam 2,
           r.2.bus.ppu.oam 5, r.2.bus.ppu.oam 255, r.2.bus.ppu.reg.oam_addr)) :
      Except EmuErr (Nat × Nat × Nat × Nat × Nat × Nat × Nat)) =
    .ok (3, 3, 0xAA, 0xE3, 0x00, 0xBB, 5) ∧
    c2ram.getD 0x200 0 = 0xAA ∧ c2ram.getD 0x202 0 = 0xFF ∧
    c2ram.getD 0x205 0 = 0 ∧ c2ram.getD 0x2FF 0 = 0xBB :=
  ⟨rfl, rfl, rfl, rfl, rfl⟩

/-- C3: executing BRK from `c3cpu` (PC `$8000`, SP `$FD`, status `$20`, IRQ
vector `$1234` at `$FFFE/$FFFF`) pushes PCH `$80` and PCL `$02` of PC+2, then
pushes the status byte `$24` — the live status with I inserted — which does
NOT have the B bit set (the source computes `flags = status | BREAK` but
pushes `status` instead), then loads PC from the vector.  This refutes the
claim that BRK pushes the status with both B and U set: U is set here only
because it was already set in the live status. -/
theorem C3_brk_pushes_status_without_break :
    ∃ cpu', brk .Implied c3cpu = .ok (0, cpu') ∧
      cpu'.reg.pc = make_address 0x34 0x12 ∧
      cpu'.reg.sp = 0xFA ∧
      cpu'.reg.status = 0x24 ∧
      cpu'.bus.ram 0x1FD = 0x80 ∧
      cpu'.bus.ram 0x1FC = 0x02 ∧
      cpu'.bus.ram 0x1FB = 0x24 ∧
      flagContains 0x24 StatusFlags.BREAK = false ∧
      flagContains 0x24 StatusFlags.UNUSED = true := by
  obtain ⟨cpu', hrun, hpc, hsp, hst, hr0, hr1, hr2⟩ :=
    brk_spec c3cpu 0x34 0x12
      (by show (3 : Nat) ≤ 0xFD; decide)
      (by show (0xFD : Nat) ≤ 0xFF; decide)
      (by show (0x8000 : Nat) + 2 ≤ 0xFFFF; decide)
      c3_rom_lo c3_rom_hi
  exact ⟨cpu', hrun, hpc, hsp, hst, hr0, hr1, hr2, by decide, by decide⟩

/-- C4: refutation of the claim that the eight status-flag bits are pairwise
distinct and that SED/CLD touch only D.  In the source `DECIMAL = 0b0000100`
equals `INTERRUPT_DISABLE = 0b00000100` (both bit 2), so from status `$04`
(I set) CLD clears the I flag, and from status `$00` SED sets the I flag. -/
theorem C4_decimal_aliases_interrupt_disable :
    StatusFlags.DECIMAL = StatusFlags.INTERRUPT_DISABLE ∧
    c4cpu.reg.status = 0x04 ∧
    flagContains c4cpu.reg.status StatusFlags.INTERRUPT_DISABLE = true ∧
    (cld .Implied c4cpu).map (fun r => r.2.reg.status) = .ok 0x00 ∧
    c4cpu'.reg.status = 0x00 ∧
    (sed .Implied c4cpu').map (fun r => r.2.reg.status) = .ok 0x04 ∧
    flagContains 0x04 StatusFlags.INTERRUPT_DISABLE = true :=
  ⟨rfl, rfl, rfl, rfl, rfl, rfl, rfl⟩

end NesEmu

namespace NesEmu

/-- C5: for every CPU state with `A = a < 256` and every immediate operand
`m < 256`, ADC yields `A = (a + m + c) % 256`, carry `C = (a + m + c) > 0xFF`
and overflow `V = ((a ^ r) & (m ^ r) & 0x80) ≠ 0` where `r` is the resulting
accumulator and `c` the incoming carry flag — exactly the claimed flag
semantics. -/
theorem C5_adc_flags (cpu : Cpu) (m : Nat)
    (ha : cpu.reg.a < 256) (hm : m < 256) :
    ∃ cpu' : Cpu,
      adc (.Immediate m) cpu = .ok (0, cpu') ∧
      cpu'.reg.a =
        (cpu.reg.a + m +
          (if flagContains cpu.reg.status StatusFlags.CARRY then 1 else 0)) % 256 ∧
      flagContains cpu'.reg.status StatusFlags.CARRY =
        decide (0xFF < cpu.reg.a + m +
          (if flagContains cpu.reg.status StatusFlags.CARRY then 1 else 0)) ∧
      flagContains cpu'.reg.status StatusFlags.OVERFLOW =
        decide (((cpu.reg.a ^^^ cpu'.reg.a) &&& (m ^^^ cpu'.reg.a) &&& 0x80) ≠ 0) := by
  obtain ⟨cpu', hrun, hst, ha'⟩ :
      ∃ cpu', adc (.Immediate m) cpu = .ok (0, cpu') ∧
        cpu'.reg.status =
          flagSet
            (flagSet
              (flagSet
                (flagSet cpu.reg.status StatusFlags.NEGATIVE
                  (is_negative ((cpu.reg.a + m +
                    (if flagContains cpu.reg.status StatusFlags.CARRY then 1 else 0)) &&& 0xFF)))
                StatusFlags.ZERO
                (decide ((cpu.reg.a + m +
                  (if flagContains cpu.reg.status StatusFlags.CARRY then 1 else 0)) &&& 0xFF = 0)))
              StatusFlags.CARRY
              (decide ((cpu.reg.a + m +
                (if flagContains cpu.reg.status StatusFlags.CARRY then 1 else 0)) &&& 0xFF00 ≠ 0)))
            StatusFlags.OVERFLOW
            (decide ((is_negative m = is_negative cpu.reg.a) ∧
              (is_negative ((cpu.reg.a + m +
                (if flagContains cpu.reg.status StatusFlags.CARRY then 1 else 0)) &&& 0xFF) ≠
                is_negative cpu.reg.a))) ∧
        cpu'.reg.a =
          (cpu.reg.a + m +
            (if flagContains cpu.reg.status StatusFlags.CARRY then 1 else 0)) &&& 0xFF :=
    ⟨_, rfl, rfl, rfl⟩
  refine ⟨cpu', hrun, ?_, ?_, ?_⟩
  · rw [ha', and_mod_256]
  · rw [hst, contains_CARRY,
      testBit_flagSet_ne _ _ 0 6 _ (by norm_num [StatusFlags.OVERFLOW]) (by norm_num) (by norm_num),
      testBit_flagSet_self _ _ 0 _ (by norm_num [StatusFlags.CARRY]) (by norm_num)]
    exact decide_eq_decide.mpr (and_ff00_iff _ (by split <;> omega))
  · rw [hst, contains_OVERFLOW,
      testBit_flagSet_self _ _ 6 _ (by norm_num [StatusFlags.OVERFLOW]) (by norm_num)]
    rw [ha']
    refine decide_eq_decide.mpr ?_
    have h255bit : Nat.testBit 255 7 = true := by decide
    simp only [is_negative_eq, and80_ne, Nat.testBit_land, Nat.testBit_xor, h255bit,
      Bool.and_true]
    generalize cpu.reg.a.testBit 7 = ta
    generalize m.testBit 7 = tm
    generalize (cpu.reg.a + m +
      (if flagContains cpu.reg.status StatusFlags.CARRY then 1 else 0)).testBit 7 = tr
    cases ta <;> cases tm <;> cases tr <;> simp

theorem C5_adc_flags_witness :
    ∃ cpu' : Cpu,
      adc (.Immediate 100) c5cpu = .ok (0, cpu') ∧
      cpu'.reg.a =
        (c5cpu.reg.a + 100 +
          (if flagContains c5cpu.reg.status StatusFlags.CARRY then 1 else 0)) % 256 ∧
      flagContains cpu'.reg.status StatusFlags.CARRY =
        decide (0xFF < c5cpu.reg.a + 100 +
          (if flagContains c5cpu.reg.status StatusFlags.CARRY then 1 else 0)) ∧
      flagContains cpu'.reg.status StatusFlags.OVERFLOW =
        decide (((c5cpu.reg.a ^^^ cpu'.reg.a) &&& (100 ^^^ cpu'.reg.a) &&& 0x80) ≠ 0) :=
  C5_adc_flags c5cpu 100 (by decide) (by decide)

end NesEmu

namespace NesEmu

/-- C6: MMC1 serial protocol, with the latched value corrected.  Five
sub-`$80` writes of data bits 1,1,0,1,0 to `$8000-$9FFF` from a reset shift
register latch `control = 0b01011` (bit 0 of each byte enters at bit 4 and
shifts right, so the first write lands in bit 0 and the fifth in bit 4 —
not `0b01010` as the spec claims), reset the sequence, and a sixth
sub-`$80` write (to `$A000`) starts a new sequence with `write_count = 1`
leaving `control` unchanged. -/
theorem C6_serial_latch (m : Mmc1) (a1 a2 a3 a4 a5 : Nat)
    (hw : m.write_count = 0) (hs : m.shift_reg = 0)
    (h1 : 0x8000 ≤ a1 ∧ a1 ≤ 0x9FFF) (h2 : 0x8000 ≤ a2 ∧ a2 ≤ 0x9FFF)
    (h3 : 0x8000 ≤ a3 ∧ a3 ≤ 0x9FFF) (h4 : 0x8000 ≤ a4 ∧ a4 ≤ 0x9FFF)
    (h5 : 0x8000 ≤ a5 ∧ a5 ≤ 0x9FFF) :
    ∃ m5,
      (do
        let x1 ← m.write a1 0x01
        let x2 ← x1.write a2 0x01
        let x3 ← x2.write a3 0x00
        let x4 ← x3.write a4 0x01
        x4.write a5 0x00) = .ok m5 ∧
      m5.control = 0b01011 ∧ m5.write_count = 0 ∧ m5.shift_reg = 0 ∧
      m5.mirror_type = .Horizontal ∧
      (∀ b6, b6 &&& 0x80 = 0 →
        ∃ m6, m5.write 0xA000 b6 = .ok m6 ∧ m6.write_count = 1 ∧
          m6.control = m5.control) := by
  have e1 : m.write a1 0x01 = .ok { m with shift_reg := 16, write_count := 1 } := by
    rw [mmc1_write_serial m a1 0x01 (by omega) (by omega) (by decide) (by omega)]
    rw [hs, hw]
    rfl
  have e2 : ({ m with shift_reg := 16, write_count := 1 } : Mmc1).write a2 0x01 =
      .ok { m with shift_reg := 24, write_count := 2 } := by
    rw [mmc1_write_serial _ a2 0x01 (by omega) (by omega) (by decide)
      (by show (1 : Nat) < 4; decide)]
    simp
  have e3 : ({ m with shift_reg := 24, write_count := 2 } : Mmc1).write a3 0x00 =
      .ok { m with shift_reg := 12, write_count := 3 } := by
    rw [mmc1_write_serial _ a3 0x00 (by omega) (by omega) (by decide)
      (by show (2 : Nat) < 4; decide)]
    simp
  have e4 : ({ m with shift_reg := 12, write_count := 3 } : Mmc1).write a4 0x01 =
      .ok { m with shift_reg := 22, write_count := 4 } := by
    rw [mmc1_write_serial _ a4 0x01 (by omega) (by omega) (by decide)
      (by show (3 : Nat) < 4; decide)]
    simp
  have e5 : ({ m with shift_reg := 22, write_count := 4 } : Mmc1).write a5 0x00 =
      .ok { m with
        shift_reg := 0, write_count := 0, control := 11,
        mirror_type := .Horizontal,
        chr_rom_bank_0_base := (m.chr_bank0 >>> 1) * (8 * 1024),
        chr_rom_bank_1_base := (m.chr_bank0 >>> 1) * (8 * 1024) + 4 * 1024,
        prg_rom_bank_0_base := 0,
        prg_rom_bank_1_base := (m.prg_bank &&& 0xF) * (16 * 1024) } := by
    rw [mmc1_write_latch_ctrl11 _ a5 (by omega) (by omega) rfl rfl]
  refine ⟨{ m with
      shift_reg := 0, write_count := 0, control := 11,
      mirror_type := .Horizontal,
      chr_rom_bank_0_base := (m.chr_bank0 >>> 1) * (8 * 1024),
      chr_rom_bank_1_base := (m.chr_bank0 >>> 1) * (8 * 1024) + 4 * 1024,
      prg_rom_bank_0_base := 0,
      prg_rom_bank_1_base := (m.prg_bank &&& 0xF) * (16 * 1024) },
    ?_, rfl, rfl, rfl, rfl, ?_⟩
  · rw [e1]
    simp only [ok_bind]
    rw [e2]
    simp only [ok_bind]
    rw [e3]
    simp only [ok_bind]
    rw [e4]
    simp only [ok_bind]
    rw [e5]
  · intro b6 hb6
    refine ⟨_, mmc1_write_serial _ 0xA000 b6 (by omega) (by omega) hb6
      (by show (0 : Nat) < 4; decide), rfl, rfl⟩

theorem C6_serial_latch_witness :
    ∃ m5,
      (do
        let x1 ← c6mmc1.write 0x8000 0x01
        let x2 ← x1.write 0x9ABC 0x01
        let x3 ← x2.write 0x8123 0x00
        let x4 ← x3.write 0x9FFF 0x01
        x4.write 0x8000 0x00) = .ok m5 ∧
      m5.control = 0b01011 ∧ m5.write_count = 0 ∧ m5.shift_reg = 0 ∧
      m5.mirror_type = .Horizontal ∧
      (∀ b6, b6 &&& 0x80 = 0 →
        ∃ m6, m5.write 0xA000 b6 = .ok m6 ∧ m6.write_count = 1 ∧
          m6.control = m5.control) :=
  C6_serial_latch c6mmc1 0x8000 0x9ABC 0x8123 0x9FFF 0x8000 rfl rfl
    (by decide) (by decide) (by decide) (by decide) (by decide)

theorem C6_control_counterexample :
    c6chain.map Mmc1.control = .ok 0b01011 ∧ (0b01011 : Nat) ≠ 0b01010 :=
  ⟨rfl, by decide⟩

end NesEmu

namespace NesEmu

/-- C7: PPUDATA (`$2007`) read, with the palette-bypass boundary corrected.
With `0x2000 ≤ addr ≤ 0x3FFF` and `addr % 8 = 7`, a read returns the fresh
datum directly when `v > 0x3F00` (strict — NOT for every `v` in
`$3F00-$3FFF`: at `v = $3F00` itself the stale buffer is returned), returns
the previous buffer contents otherwise, always refills the buffer from
`[v]`, and increments `v` exactly once, by 32 or 1 according to PPUCTRL's
VRAM-increment bit. -/
theorem C7_ppudata_read (p : Ppu) (c : Cartridge) (addr d : Nat)
    (h1 : 0x2000 ≤ addr) (h2 : addr ≤ 0x3FFF) (h7 : addr % 8 = 7)
    (hrd : p.ppu_read c p.reg.v_addr = .ok d) :
    ∃ p', p.read c addr =
        .ok ((if p.reg.v_addr > 0x3F00 then d else p.reg.ppu_data_buffer), p') ∧
      p'.reg.ppu_data_buffer = d ∧
      p'.reg.v_addr = p.reg.v_addr +
        (if PpuCtrl.get_vram_inc p.reg.control then 32 else 1) := by
  unfold Ppu.read
  rw [if_neg (by omega)]
  simp only [and7_mod8, h7]
  norm_num
  rw [hrd]
  exact ⟨_, rfl, rfl, rfl⟩

theorem C7_ppudata_read_witness :
    ∃ p', c7ppu'.read .mock 0x2007 =
        .ok ((if c7ppu'.reg.v_addr > 0x3F00 then 0x77 else c7ppu'.reg.ppu_data_buffer), p') ∧
      p'.reg.ppu_data_buffer = 0x77 ∧
      p'.reg.v_addr = c7ppu'.reg.v_addr +
        (if PpuCtrl.get_vram_inc c7ppu'.reg.control then 32 else 1) :=
  C7_ppudata_read c7ppu' .mock 0x2007 0x77 (by decide) (by decide) (by decide) rfl

theorem C7_palette_base_counterexample :
    (c7ppu.read .mock 0x2007).map
      (fun vp => (vp.1, vp.2.reg.ppu_data_buffer, vp.2.reg.v_addr)) =
      .ok (0xCD, 0xAB, 0x3F01) ∧
    c7ppu.palettes (c7ppu.map_palette_addr 0x3F00) = 0xAB ∧
    c7ppu.reg.v_addr = 0x3F00 ∧ (0xCD : Nat) ≠ 0xAB :=
  ⟨rfl, rfl, rfl, by decide⟩

end NesEmu

namespace NesEmu

/-- C8: refutation of the claim that reads of `$4016` while the strobe is
high return the live A-button state without consuming bits.  `c8controller`
has A pressed; after a write of 1 (strobe high, inputs latched), the first
read returns 1 but the second read returns 0: `Controller::read` shifts the
latched register unconditionally, never consulting the strobe flag. -/
theorem C8_strobe_ignored_on_read :
    (c8controller.write 1).strobe = true ∧
    (c8controller.write 1).inputs &&& 1 = 1 ∧
    ((c8controller.write 1).read).1 = 1 ∧
    ((((c8controller.write 1).read).2).read).1 = 0 :=
  ⟨rfl, rfl, rfl, rfl⟩

/-- C9: refutation of the claim that stack pushes and pulls are total with SP
wrapping mod 256.  A push at `SP = 0` evaluates the checked `sp - 1` and
panics on underflow, and a pull at `SP = 0xFF` evaluates the checked
`sp + 1` and panics on u8 overflow — neither wraps. -/
theorem C9_stack_ops_panic_at_bounds :
    push_stack c9cpu 0x42 = .error (.rtPanic "unsigned underflow") ∧
    c9cpu.reg.sp = 0 ∧
    pop_stack c9cpu' = .error (.rtPanic "u8 overflow") ∧
    c9cpu'.reg.sp = 0xFF :=
  ⟨rfl, rfl, rfl, rfl⟩

end NesEmu

namespace NesEmu

/-- C10: for every PPU state, cartridge, byte and address in `$2000-$3FFF`,
a CPU read of a register whose mirror offset is 0 (PPUCTRL), 1 (PPUMASK),
3 (OAMADDR), 5 (PPUSCROLL) or 6 (PPUADDR) returns a `WriteOnly` error, and a
CPU write to offset 2 (PPUSTATUS) returns a `ReadOnly` error; the erroring
access returns no data and produces no new PPU state. -/
theorem C10_reg_direction (p : Ppu) (c : Cartridge) (addr b : Nat)
    (h1 : 0x2000 ≤ addr) (h2 : addr ≤ 0x3FFF) :
    ((addr % 8 = 0 ∨ addr % 8 = 1 ∨ addr % 8 = 3 ∨ addr % 8 = 5 ∨ addr % 8 = 6) →
        p.read c addr = .error (.writeOnly addr)) ∧
    (addr % 8 = 2 → p.write c addr b = .error (.readOnly addr)) := by
  constructor
  · intro h
    unfold Ppu.read
    rw [if_neg (by omega)]
    simp only [and7_mod8]
    rcases h with h | h | h | h | h <;> simp [h]
  · intro h
    unfold Ppu.write
    rw [if_neg (by omega)]
    simp only [and7_mod8]
    simp [h]

theorem C10_reg_direction_witness :
    Ppu.read (Ppu.build cmZero) .mock 0x2005 = .error (.writeOnly 0x2005) ∧
    Ppu.write (Ppu.build cmZero) .mock 0x2002 7 = .error (.readOnly 0x2002) :=
  ⟨(C10_reg_direction (Ppu.build cmZero) .mock 0x2005 0 (by decide) (by decide)).1
      (by decide),
   (C10_reg_direction (Ppu.build cmZero) .mock 0x2002 7 (by decide) (by decide)).2
      (by decide)⟩

end NesEmu
